import Mathlib

/-!
Verification of the `forecast-rs` Dark Sky API client (`src/lib.rs`).

This file gives a shallow embedding of the request-builder and response
data-model layers of the crate and proves/refutes the specification claims
about them.

Modelling conventions:
* Rust `f64` values are modelled as exact rationals (`Rat`).  The crate never
  performs floating-point arithmetic on them: coordinates are only formatted
  with `{:.16}` into the URL, and response metrics are only carried through
  JSON (serde_json prints an `f64` as the shortest decimal string that parses
  back to the same `f64`, so the value-level round trip is exact, which the
  rational model reflects faithfully).
* Rust `u64` is modelled as `U64 := \x7bn : Nat // n < 2^64\x7d`.
* `serde_json` documents are modelled at the value level (`Json`), with
  numbers as exact rationals; serde_json's internal integer/float storage
  distinction is not modelled (no claim depends on it).
* Fallible Rust code returns `Except String` / `Option`; a `.unwrap()` panic
  site is modelled as propagating `Option.none`.
-/

namespace Forecast

/-- The type of a JSON document, modelling `serde_json::Value` with numbers
as exact rationals.  Object fields are an ordered association list, as
produced by a JSON parser. -/
inductive Json where
  | null : Json
  | bool (b : Bool) : Json
  | num (q : Rat) : Json
  | str (s : String) : Json
  | arr (elems : List Json) : Json
  | obj (fields : List (String × Json)) : Json

/-- The keys of a JSON object (empty for non-objects). -/
def Json.keys : Json → List String
  | .obj fields => fields.map Prod.fst
  | _ => []

/-- Rust `u64`, modelled as a bounded natural number. -/
abbrev U64 := {n : Nat // n < 2 ^ 64}

-- enumerated parameter / data types, from `src/lib.rs` (serde renames give
-- each variant its wire string)

/-- `Icon` from `src/lib.rs`: model object representing an icon for display. -/
inductive Icon where
  | ClearDay | ClearNight | Rain | Snow | Sleet | Wind | Fog | Cloudy
  | PartlyCloudyDay | PartlyCloudyNight | Hail | Thunderstorm | Tornado
  deriving DecidableEq

/-- The `#[serde(rename = ...)]` wire string of each `Icon` variant. -/
def Icon.toWire : Icon → String
  | .ClearDay => "clear-day"
  | .ClearNight => "clear-night"
  | .Rain => "rain"
  | .Snow => "snow"
  | .Sleet => "sleet"
  | .Wind => "wind"
  | .Fog => "fog"
  | .Cloudy => "cloudy"
  | .PartlyCloudyDay => "partly-cloudy-day"
  | .PartlyCloudyNight => "partly-cloudy-night"
  | .Hail => "hail"
  | .Thunderstorm => "thunderstorm"
  | .Tornado => "tornado"

/-- Inverse wire lookup for `Icon`, as serde's derived `Deserialize` performs
(an unmatched string is an unknown-variant error, represented by `none`). -/
def Icon.fromWire : String → Option Icon
  | "clear-day" => some .ClearDay
  | "clear-night" => some .ClearNight
  | "rain" => some .Rain
  | "snow" => some .Snow
  | "sleet" => some .Sleet
  | "wind" => some .Wind
  | "fog" => some .Fog
  | "cloudy" => some .Cloudy
  | "partly-cloudy-day" => some .PartlyCloudyDay
  | "partly-cloudy-night" => some .PartlyCloudyNight
  | "hail" => some .Hail
  | "thunderstorm" => some .Thunderstorm
  | "tornado" => some .Tornado
  | _ => none

/-- `PrecipType` from `src/lib.rs`. -/
inductive PrecipType where
  | Rain | Snow | Sleet
  deriving DecidableEq

def PrecipType.toWire : PrecipType → String
  | .Rain => "rain"
  | .Snow => "snow"
  | .Sleet => "sleet"

def PrecipType.fromWire : String → Option PrecipType
  | "rain" => some .Rain
  | "snow" => some .Snow
  | "sleet" => some .Sleet
  | _ => none

/-- `ExcludeBlock` from `src/lib.rs` (Serialize-only in the source). -/
inductive ExcludeBlock where
  | Currently | Minutely | Hourly | Daily | Alerts | Flags
  deriving DecidableEq

def ExcludeBlock.toWire : ExcludeBlock → String
  | .Currently => "currently"
  | .Minutely => "minutely"
  | .Hourly => "hourly"
  | .Daily => "daily"
  | .Alerts => "alerts"
  | .Flags => "flags"

/-- `ExtendBy` from `src/lib.rs` (Serialize-only in the source). -/
inductive ExtendBy where
  | Hourly
  deriving DecidableEq

def ExtendBy.toWire : ExtendBy → String
  | .Hourly => "hourly"

/-- `Lang` from `src/lib.rs` (Serialize-only in the source). -/
inductive Lang where
  | Arabic | Azerbaijani | Belarusian | Bulgarian | Bosnian | Catalan | Czech
  | German | Greek | English | Spanish | Estonian | French | Croatian
  | Hungarian | Indonesian | Italian | Icelandic | Georgian | Cornish
  | NorwegianBokmal | Dutch | Polish | Portugese | Russian | Slovak | Serbian
  | Swedish | Tetum | Turkish | Ukranian | IgpayAtinlay | SimplifiedChinese
  | TraditionalChinese
  deriving DecidableEq

def Lang.toWire : Lang → String
  | .Arabic => "ar"
  | .Azerbaijani => "az"
  | .Belarusian => "be"
  | .Bulgarian => "bg"
  | .Bosnian => "bs"
  | .Catalan => "ca"
  | .Czech => "cz"
  | .German => "de"
  | .Greek => "el"
  | .English => "en"
  | .Spanish => "es"
  | .Estonian => "et"
  | .French => "fr"
  | .Croatian => "hr"
  | .Hungarian => "hu"
  | .Indonesian => "id"
  | .Italian => "it"
  | .Icelandic => "is"
  | .Georgian => "ka"
  | .Cornish => "kw"
  | .NorwegianBokmal => "nb"
  | .Dutch => "nl"
  | .Polish => "pl"
  | .Portugese => "pt"
  | .Russian => "ru"
  | .Slovak => "sk"
  | .Serbian => "sr"
  | .Swedish => "sv"
  | .Tetum => "tet"
  | .Turkish => "tr"
  | .Ukranian => "uk"
  | .IgpayAtinlay => "x-pig-latin"
  | .SimplifiedChinese => "zh"
  | .TraditionalChinese => "zh-tw"

/-- `Units` from `src/lib.rs`. -/
inductive Units where
  | Auto | CA | UK | Imperial | SI
  deriving DecidableEq

def Units.toWire : Units → String
  | .Auto => "auto"
  | .CA => "ca"
  | .UK => "uk2"
  | .Imperial => "us"
  | .SI => "si"

def Units.fromWire : String → Option Units
  | "auto" => some .Auto
  | "ca" => some .CA
  | "uk2" => some .UK
  | "us" => some .Imperial
  | "si" => some .SI
  | _ => none

/-- `Severity` from `src/lib.rs`. -/
inductive Severity where
  | Advisory | Watch | Warning
  deriving DecidableEq

def Severity.toWire : Severity → String
  | .Advisory => "advisory"
  | .Watch => "watch"
  | .Warning => "warning"

def Severity.fromWire : String → Option Severity
  | "advisory" => some .Advisory
  | "watch" => some .Watch
  | "warning" => some .Warning
  | _ => none

-- serde_json deserialization primitives (value level)

/-- Result type of a deserialization step (`serde_json::Result`); the error
payload is the error message. -/
abbrev De (α : Type) := Except String α

/-- Deserialize an `f64`: any JSON number (exact-rational model). -/
def asF64 : Json → De Rat
  | .num q => .ok q
  | _ => .error "invalid type: expected f64"

/-- Deserialize a `u64`: a JSON number that is a non-negative integer
below `2^64`; anything else is an error, as in serde_json. -/
def asU64 : Json → De U64
  | .num q =>
    if h : q.den = 1 ∧ 0 ≤ q.num ∧ q.num < 2 ^ 64 then
      .ok ⟨q.num.toNat, by omega⟩
    else .error "invalid number: expected u64"
  | _ => .error "invalid type: expected u64"

/-- Deserialize a `String`. -/
def asString : Json → De String
  | .str s => .ok s
  | _ => .error "invalid type: expected string"

/-- Deserialize a unit-variant enum through its wire-string table; an
unrecognized string is an unknown-variant error, never a default. -/
def asEnum {α : Type} (fromWire : String → Option α) : Json → De α
  | .str s =>
    match fromWire s with
    | some x => .ok x
    | none => .error "unknown variant"
  | _ => .error "invalid type: expected enum string"

/-- Deserialize an `Option<T>`: JSON `null` is `None`, anything else is
delegated to `T`'s deserializer (serde's derived behavior). -/
def asOpt {α : Type} (p : Json → De α) : Json → De (Option α)
  | .null => .ok none
  | v => (p v).map some

/-- The element loop of serde's sequence visitor: deserialize each element
in order, propagating the first error. -/
def deList {α : Type} (p : Json → De α) : List Json → De (List α)
  | [] => .ok []
  | v :: vs => p v >>= fun x => deList p vs >>= fun xs => .ok (x :: xs)

/-- Deserialize a `Vec<T>` from a JSON array, element by element. -/
def asList {α : Type} (p : Json → De α) : Json → De (List α)
  | .arr xs => deList p xs
  | _ => .error "invalid type: expected array"

-- serialization primitives

/-- Serialize an `Option<T>`: `None` becomes JSON `null` (serde's derived
`Serialize` never skips a field). -/
def serOpt {α : Type} (s : α → Json) : Option α → Json
  | none => .null
  | some x => s x

/-- Serialize a `u64` as a JSON number. -/
def serU64 (u : U64) : Json := .num (u.val : Rat)

-- response model structs, fields in the declaration order of `src/lib.rs`

/-- `DataPoint` from `src/lib.rs`: ~30 optional weather metrics plus a
required epoch timestamp. -/
structure DataPoint where
  apparent_temperature : Option Rat
  apparent_temperature_max : Option Rat
  apparent_temperature_max_time : Option U64
  apparent_temperature_min : Option Rat
  apparent_temperature_min_time : Option U64
  cloud_cover : Option Rat
  dew_point : Option Rat
  humidity : Option Rat
  icon : Option Icon
  moon_phase : Option Rat
  nearest_storm_bearing : Option Rat
  nearest_storm_distance : Option Rat
  ozone : Option Rat
  precip_accumulation : Option Rat
  precip_intensity : Option Rat
  precip_intensity_max : Option Rat
  precip_intensity_max_time : Option U64
  precip_probability : Option Rat
  precip_type : Option PrecipType
  pressure : Option Rat
  summary : Option String
  sunrise_time : Option U64
  sunset_time : Option U64
  temperature : Option Rat
  temperature_max : Option Rat
  temperature_max_time : Option U64
  temperature_min : Option Rat
  temperature_min_time : Option U64
  time : U64
  visibility : Option Rat
  wind_bearing : Option Rat
  wind_gust : Option Rat
  wind_gust_time : Option U64
  wind_speed : Option Rat
  deriving DecidableEq

/-- Field slots accumulated by the derived `Deserialize` visitor for
`DataPoint` (one `Option` per field, all initially unset). -/
structure DataPointSlots where
  apparent_temperature : Option (Option Rat) := none
  apparent_temperature_max : Option (Option Rat) := none
  apparent_temperature_max_time : Option (Option U64) := none
  apparent_temperature_min : Option (Option Rat) := none
  apparent_temperature_min_time : Option (Option U64) := none
  cloud_cover : Option (Option Rat) := none
  dew_point : Option (Option Rat) := none
  humidity : Option (Option Rat) := none
  icon : Option (Option Icon) := none
  moon_phase : Option (Option Rat) := none
  nearest_storm_bearing : Option (Option Rat) := none
  nearest_storm_distance : Option (Option Rat) := none
  ozone : Option (Option Rat) := none
  precip_accumulation : Option (Option Rat) := none
  precip_intensity : Option (Option Rat) := none
  precip_intensity_max : Option (Option Rat) := none
  precip_intensity_max_time : Option (Option U64) := none
  precip_probability : Option (Option Rat) := none
  precip_type : Option (Option PrecipType) := none
  pressure : Option (Option Rat) := none
  summary : Option (Option String) := none
  sunrise_time : Option (Option U64) := none
  sunset_time : Option (Option U64) := none
  temperature : Option (Option Rat) := none
  temperature_max : Option (Option Rat) := none
  temperature_max_time : Option (Option U64) := none
  temperature_min : Option (Option Rat) := none
  temperature_min_time : Option (Option U64) := none
  time : Option U64 := none
  visibility : Option (Option Rat) := none
  wind_bearing : Option (Option Rat) := none
  wind_gust : Option (Option Rat) := none
  wind_gust_time : Option (Option U64) := none
  wind_speed : Option (Option Rat) := none

/-- One step of the derived map visitor for `DataPoint`: dispatch on the wire
field name (`#[serde(rename = ...)]`), reject duplicates, ignore unknown
keys. -/
def DataPoint.step (p : DataPointSlots) : String × Json → De DataPointSlots
  | ("apparentTemperature", v) =>
    if p.apparent_temperature.isSome then .error "duplicate field"
    else (asOpt asF64 v).map fun x => {p with apparent_temperature := some x}
  | ("apparentTemperatureMax", v) =>
    if p.apparent_temperature_max.isSome then .error "duplicate field"
    else (asOpt asF64 v).map fun x => {p with apparent_temperature_max := some x}
  | ("apparentTemperatureMaxTime", v) =>
    if p.apparent_temperature_max_time.isSome then .error "duplicate field"
    else (asOpt asU64 v).map fun x => {p with apparent_temperature_max_time := some x}
  | ("apparentTemperatureMin", v) =>
    if p.apparent_temperature_min.isSome then .error "duplicate field"
    else (asOpt asF64 v).map fun x => {p with apparent_temperature_min := some x}
  | ("apparentTemperatureMinTime", v) =>
    if p.apparent_temperature_min_time.isSome then .error "duplicate field"
    else (asOpt asU64 v).map fun x => {p with apparent_temperature_min_time := some x}
  | ("cloudCover", v) =>
    if p.cloud_cover.isSome then .error "duplicate field"
    else (asOpt asF64 v).map fun x => {p with cloud_cover := some x}
  | ("dewPoint", v) =>
    if p.dew_point.isSome then .error "duplicate field"
    else (asOpt asF64 v).map fun x => {p with dew_point := some x}
  | ("humidity", v) =>
    if p.humidity.isSome then .error "duplicate field"
    else (asOpt asF64 v).map fun x => {p with humidity := some x}
  | ("icon", v) =>
    if p.icon.isSome then .error "duplicate field"
    else (asOpt (asEnum Icon.fromWire) v).map fun x => {p with icon := some x}
  | ("moonPhase", v) =>
    if p.moon_phase.isSome then .error "duplicate field"
    else (asOpt asF64 v).map fun x => {p with moon_phase := some x}
  | ("nearestStormBearing", v) =>
    if p.nearest_storm_bearing.isSome then .error "duplicate field"
    else (asOpt asF64 v).map fun x => {p with nearest_storm_bearing := some x}
  | ("nearestStormDistance", v) =>
    if p.nearest_storm_distance.isSome then .error "duplicate field"
    else (asOpt asF64 v).map fun x => {p with nearest_storm_distance := some x}
  | ("ozone", v) =>
    if p.ozone.isSome then .error "duplicate field"
    else (asOpt asF64 v).map fun x => {p with ozone := some x}
  | ("precipAccumulation", v) =>
    if p.precip_accumulation.isSome then .error "duplicate field"
    else (asOpt asF64 v).map fun x => {p with precip_accumulation := some x}
  | ("precipIntensity", v) =>
    if p.precip_intensity.isSome then .error "duplicate field"
    else (asOpt asF64 v).map fun x => {p with precip_intensity := some x}
  | ("precipIntensityMax", v) =>
    if p.precip_intensity_max.isSome then .error "duplicate field"
    else (asOpt asF64 v).map fun x => {p with precip_intensity_max := some x}
  | ("precipIntensityMaxTime", v) =>
    if p.precip_intensity_max_time.isSome then .error "duplicate field"
    else (asOpt asU64 v).map fun x => {p with precip_intensity_max_time := some x}
  | ("precipProbability", v) =>
    if p.precip_probability.isSome then .error "duplicate field"
    else (asOpt asF64 v).map fun x => {p with precip_probability := some x}
  | ("precipType", v) =>
    if p.precip_type.isSome then .error "duplicate field"
    else (asOpt (asEnum PrecipType.fromWire) v).map fun x => {p with precip_type := some x}
  | ("pressure", v) =>
    if p.pressure.isSome then .error "duplicate field"
    else (asOpt asF64 v).map fun x => {p with pressure := some x}
  | ("summary", v) =>
    if p.summary.isSome then .error "duplicate field"
    else (asOpt asString v).map fun x => {p with summary := some x}
  | ("sunriseTime", v) =>
    if p.sunrise_time.isSome then .error "duplicate field"
    else (asOpt asU64 v).map fun x => {p with sunrise_time := some x}
  | ("sunsetTime", v) =>
    if p.sunset_time.isSome then .error "duplicate field"
    else (asOpt asU64 v).map fun x => {p with sunset_time := some x}
  | ("temperature", v) =>
    if p.temperature.isSome then .error "duplicate field"
    else (asOpt asF64 v).map fun x => {p with temperature := some x}
  | ("temperatureMax", v) =>
    if p.temperature_max.isSome then .error "duplicate field"
    else (asOpt asF64 v).map fun x => {p with temperature_max := some x}
  | ("temperatureMaxTime", v) =>
    if p.temperature_max_time.isSome then .error "duplicate field"
    else (asOpt asU64 v).map fun x => {p with temperature_max_time := some x}
  | ("temperatureMin", v) =>
    if p.temperature_min.isSome then .error "duplicate field"
    else (asOpt asF64 v).map fun x => {p with temperature_min := some x}
  | ("temperatureMinTime", v) =>
    if p.temperature_min_time.isSome then .error "duplicate field"
    else (asOpt asU64 v).map fun x => {p with temperature_min_time := some x}
  | ("time", v) =>
    if p.time.isSome then .error "duplicate field"
    else (asU64 v).map fun x => {p with time := some x}
  | ("visibility", v) =>
    if p.visibility.isSome then .error "duplicate field"
    else (asOpt asF64 v).map fun x => {p with visibility := some x}
  | ("windBearing", v) =>
    if p.wind_bearing.isSome then .error "duplicate field"
    else (asOpt asF64 v).map fun x => {p with wind_bearing := some x}
  | ("windGust", v) =>
    if p.wind_gust.isSome then .error "duplicate field"
    else (asOpt asF64 v).map fun x => {p with wind_gust := some x}
  | ("windGustTime", v) =>
    if p.wind_gust_time.isSome then .error "duplicate field"
    else (asOpt asU64 v).map fun x => {p with wind_gust_time := some x}
  | ("windSpeed", v) =>
    if p.wind_speed.isSome then .error "duplicate field"
    else (asOpt asF64 v).map fun x => {p with wind_speed := some x}
  | (_, _) => .ok p

/-- An `Option` field slot left unset by the visitor yields `None`
(serde's `missing_field` succeeds on `Option` types). -/
def unwrapOpt {α : Type} (o : Option (Option α)) : Option α := o.getD none

/-- Finalize a `DataPoint`: the only required field is `time`; every
`Option` field left unset becomes `None`. -/
def DataPoint.finish (p : DataPointSlots) : De DataPoint :=
  match p.time with
  | none => .error "missing field time"
  | some t => .ok {
      apparent_temperature := unwrapOpt p.apparent_temperature
      apparent_temperature_max := unwrapOpt p.apparent_temperature_max
      apparent_temperature_max_time := unwrapOpt p.apparent_temperature_max_time
      apparent_temperature_min := unwrapOpt p.apparent_temperature_min
      apparent_temperature_min_time := unwrapOpt p.apparent_temperature_min_time
      cloud_cover := unwrapOpt p.cloud_cover
      dew_point := unwrapOpt p.dew_point
      humidity := unwrapOpt p.humidity
      icon := unwrapOpt p.icon
      moon_phase := unwrapOpt p.moon_phase
      nearest_storm_bearing := unwrapOpt p.nearest_storm_bearing
      nearest_storm_distance := unwrapOpt p.nearest_storm_distance
      ozone := unwrapOpt p.ozone
      precip_accumulation := unwrapOpt p.precip_accumulation
      precip_intensity := unwrapOpt p.precip_intensity
      precip_intensity_max := unwrapOpt p.precip_intensity_max
      precip_intensity_max_time := unwrapOpt p.precip_intensity_max_time
      precip_probability := unwrapOpt p.precip_probability
      precip_type := unwrapOpt p.precip_type
      pressure := unwrapOpt p.pressure
      summary := unwrapOpt p.summary
      sunrise_time := unwrapOpt p.sunrise_time
      sunset_time := unwrapOpt p.sunset_time
      temperature := unwrapOpt p.temperature
      temperature_max := unwrapOpt p.temperature_max
      temperature_max_time := unwrapOpt p.temperature_max_time
      temperature_min := unwrapOpt p.temperature_min
      temperature_min_time := unwrapOpt p.temperature_min_time
      time := t
      visibility := unwrapOpt p.visibility
      wind_bearing := unwrapOpt p.wind_bearing
      wind_gust := unwrapOpt p.wind_gust
      wind_gust_time := unwrapOpt p.wind_gust_time
      wind_speed := unwrapOpt p.wind_speed }

/-- Derived `Deserialize` for `DataPoint`. -/
def deserializeDataPoint : Json → De DataPoint
  | .obj fields => fields.foldlM DataPoint.step {} >>= DataPoint.finish
  | _ => .error "invalid type: expected map"

/-- Derived `Serialize` for `DataPoint`: every field is emitted, in
declaration order, `None` as JSON `null`. -/
def serializeDataPoint (d : DataPoint) : Json :=
  .obj [
    ("apparentTemperature", serOpt Json.num d.apparent_temperature),
    ("apparentTemperatureMax", serOpt Json.num d.apparent_temperature_max),
    ("apparentTemperatureMaxTime", serOpt serU64 d.apparent_temperature_max_time),
    ("apparentTemperatureMin", serOpt Json.num d.apparent_temperature_min),
    ("apparentTemperatureMinTime", serOpt serU64 d.apparent_temperature_min_time),
    ("cloudCover", serOpt Json.num d.cloud_cover),
    ("dewPoint", serOpt Json.num d.dew_point),
    ("humidity", serOpt Json.num d.humidity),
    ("icon", serOpt (fun i => Json.str i.toWire) d.icon),
    ("moonPhase", serOpt Json.num d.moon_phase),
    ("nearestStormBearing", serOpt Json.num d.nearest_storm_bearing),
    ("nearestStormDistance", serOpt Json.num d.nearest_storm_distance),
    ("ozone", serOpt Json.num d.ozone),
    ("precipAccumulation", serOpt Json.num d.precip_accumulation),
    ("precipIntensity", serOpt Json.num d.precip_intensity),
    ("precipIntensityMax", serOpt Json.num d.precip_intensity_max),
    ("precipIntensityMaxTime", serOpt serU64 d.precip_intensity_max_time),
    ("precipProbability", serOpt Json.num d.precip_probability),
    ("precipType", serOpt (fun t => Json.str t.toWire) d.precip_type),
    ("pressure", serOpt Json.num d.pressure),
    ("summary", serOpt Json.str d.summary),
    ("sunriseTime", serOpt serU64 d.sunrise_time),
    ("sunsetTime", serOpt serU64 d.sunset_time),
    ("temperature", serOpt Json.num d.temperature),
    ("temperatureMax", serOpt Json.num d.temperature_max),
    ("temperatureMaxTime", serOpt serU64 d.temperature_max_time),
    ("temperatureMin", serOpt Json.num d.temperature_min),
    ("temperatureMinTime", serOpt serU64 d.temperature_min_time),
    ("time", serU64 d.time),
    ("visibility", serOpt Json.num d.visibility),
    ("windBearing", serOpt Json.num d.wind_bearing),
    ("windGust", serOpt Json.num d.wind_gust),
    ("windGustTime", serOpt serU64 d.wind_gust_time),
    ("windSpeed", serOpt Json.num d.wind_speed)]

/-- `DataBlock` from `src/lib.rs`: a time series of data points with optional
summary and icon. -/
structure DataBlock where
  data : List DataPoint
  summary : Option String
  icon : Option Icon
  deriving DecidableEq

/-- Field slots for the derived `Deserialize` visitor of `DataBlock`. -/
structure DataBlockSlots where
  data : Option (List DataPoint) := none
  summary : Option (Option String) := none
  icon : Option (Option Icon) := none

def DataBlock.step (p : DataBlockSlots) : String × Json → De DataBlockSlots
  | ("data", v) =>
    if p.data.isSome then .error "duplicate field"
    else (asList deserializeDataPoint v).map fun x => {p with data := some x}
  | ("summary", v) =>
    if p.summary.isSome then .error "duplicate field"
    else (asOpt asString v).map fun x => {p with summary := some x}
  | ("icon", v) =>
    if p.icon.isSome then .error "duplicate field"
    else (asOpt (asEnum Icon.fromWire) v).map fun x => {p with icon := some x}
  | (_, _) => .ok p

def DataBlock.finish (p : DataBlockSlots) : De DataBlock :=
  match p.data with
  | none => .error "missing field data"
  | some d => .ok {
      data := d
      summary := unwrapOpt p.summary
      icon := unwrapOpt p.icon }

/-- Derived `Deserialize` for `DataBlock`. -/
def deserializeDataBlock : Json → De DataBlock
  | .obj fields => fields.foldlM DataBlock.step {} >>= DataBlock.finish
  | _ => .error "invalid type: expected map"

/-- Derived `Serialize` for `DataBlock`. -/
def serializeDataBlock (b : DataBlock) : Json :=
  .obj [
    ("data", .arr (b.data.map serializeDataPoint)),
    ("summary", serOpt Json.str b.summary),
    ("icon", serOpt (fun i => Json.str i.toWire) b.icon)]

/-- `Alert` from `src/lib.rs`: a severe weather warning.  Note that in the
source `expires` has type `Option<u64>` while every other field is
required. -/
structure Alert where
  description : String
  expires : Option U64
  regions : List String
  severity : Severity
  time : U64
  title : String
  uri : String
  deriving DecidableEq

/-- Field slots for the derived `Deserialize` visitor of `Alert`. -/
structure AlertSlots where
  description : Option String := none
  expires : Option (Option U64) := none
  regions : Option (List String) := none
  severity : Option Severity := none
  time : Option U64 := none
  title : Option String := none
  uri : Option String := none

def Alert.step (p : AlertSlots) : String × Json → De AlertSlots
  | ("description", v) =>
    if p.description.isSome then .error "duplicate field"
    else (asString v).map fun x => {p with description := some x}
  | ("expires", v) =>
    if p.expires.isSome then .error "duplicate field"
    else (asOpt asU64 v).map fun x => {p with expires := some x}
  | ("regions", v) =>
    if p.regions.isSome then .error "duplicate field"
    else (asList asString v).map fun x => {p with regions := some x}
  | ("severity", v) =>
    if p.severity.isSome then .error "duplicate field"
    else (asEnum Severity.fromWire v).map fun x => {p with severity := some x}
  | ("time", v) =>
    if p.time.isSome then .error "duplicate field"
    else (asU64 v).map fun x => {p with time := some x}
  | ("title", v) =>
    if p.title.isSome then .error "duplicate field"
    else (asString v).map fun x => {p with title := some x}
  | ("uri", v) =>
    if p.uri.isSome then .error "duplicate field"
    else (asString v).map fun x => {p with uri := some x}
  | (_, _) => .ok p

/-- Finalize an `Alert`: every field except `expires` is required; a missing
required field is a deserialization error, a missing `expires` is `None`. -/
def Alert.finish (p : AlertSlots) : De Alert :=
  match p.description with
  | none => .error "missing field description"
  | some de =>
  match p.regions with
  | none => .error "missing field regions"
  | some re =>
  match p.severity with
  | none => .error "missing field severity"
  | some se =>
  match p.time with
  | none => .error "missing field time"
  | some ti =>
  match p.title with
  | none => .error "missing field title"
  | some tl =>
  match p.uri with
  | none => .error "missing field uri"
  | some ur => .ok {
      description := de
      expires := unwrapOpt p.expires
      regions := re
      severity := se
      time := ti
      title := tl
      uri := ur }

/-- Derived `Deserialize` for `Alert`. -/
def deserializeAlert : Json → De Alert
  | .obj fields => fields.foldlM Alert.step {} >>= Alert.finish
  | _ => .error "invalid type: expected map"

/-- Derived `Serialize` for `Alert`. -/
def serializeAlert (a : Alert) : Json :=
  .obj [
    ("description", .str a.description),
    ("expires", serOpt serU64 a.expires),
    ("regions", .arr (a.regions.map Json.str)),
    ("severity", .str a.severity.toWire),
    ("time", serU64 a.time),
    ("title", .str a.title),
    ("uri", .str a.uri)]

/-- `Flags` from `src/lib.rs`: response metadata. -/
structure Flags where
  darksky_unavailable : Option String
  sources : List String
  units : Units
  deriving DecidableEq

/-- Field slots for the derived `Deserialize` visitor of `Flags`. -/
structure FlagsSlots where
  darksky_unavailable : Option (Option String) := none
  sources : Option (List String) := none
  units : Option Units := none

def Flags.step (p : FlagsSlots) : String × Json → De FlagsSlots
  | ("darksky-unavailable", v) =>
    if p.darksky_unavailable.isSome then .error "duplicate field"
    else (asOpt asString v).map fun x => {p with darksky_unavailable := some x}
  | ("sources", v) =>
    if p.sources.isSome then .error "duplicate field"
    else (asList asString v).map fun x => {p with sources := some x}
  | ("units", v) =>
    if p.units.isSome then .error "duplicate field"
    else (asEnum Units.fromWire v).map fun x => {p with units := some x}
  | (_, _) => .ok p

def Flags.finish (p : FlagsSlots) : De Flags :=
  match p.sources with
  | none => .error "missing field sources"
  | some so =>
  match p.units with
  | none => .error "missing field units"
  | some un => .ok {
      darksky_unavailable := unwrapOpt p.darksky_unavailable
      sources := so
      units := un }

/-- Derived `Deserialize` for `Flags`. -/
def deserializeFlags : Json → De Flags
  | .obj fields => fields.foldlM Flags.step {} >>= Flags.finish
  | _ => .error "invalid type: expected map"

/-- Derived `Serialize` for `Flags`. -/
def serializeFlags (f : Flags) : Json :=
  .obj [
    ("darksky-unavailable", serOpt Json.str f.darksky_unavailable),
    ("sources", .arr (f.sources.map Json.str)),
    ("units", .str f.units.toWire)]

/-- `ApiResponse` from `src/lib.rs`: the root response object. -/
structure ApiResponse where
  latitude : Rat
  longitude : Rat
  timezone : String
  currently : Option DataPoint
  minutely : Option DataBlock
  hourly : Option DataBlock
  daily : Option DataBlock
  alerts : Option (List Alert)
  flags : Option Flags
  deriving DecidableEq

/-- Field slots for the derived `Deserialize` visitor of `ApiResponse`. -/
structure ApiResponseSlots where
  latitude : Option Rat := none
  longitude : Option Rat := none
  timezone : Option String := none
  currently : Option (Option DataPoint) := none
  minutely : Option (Option DataBlock) := none
  hourly : Option (Option DataBlock) := none
  daily : Option (Option DataBlock) := none
  alerts : Option (Option (List Alert)) := none
  flags : Option (Option Flags) := none

def ApiResponse.step (p : ApiResponseSlots) : String × Json → De ApiResponseSlots
  | ("latitude", v) =>
    if p.latitude.isSome then .error "duplicate field"
    else (asF64 v).map fun x => {p with latitude := some x}
  | ("longitude", v) =>
    if p.longitude.isSome then .error "duplicate field"
    else (asF64 v).map fun x => {p with longitude := some x}
  | ("timezone", v) =>
    if p.timezone.isSome then .error "duplicate field"
    else (asString v).map fun x => {p with timezone := some x}
  | ("currently", v) =>
    if p.currently.isSome then .error "duplicate field"
    else (asOpt deserializeDataPoint v).map fun x => {p with currently := some x}
  | ("minutely", v) =>
    if p.minutely.isSome then .error "duplicate field"
    else (asOpt deserializeDataBlock v).map fun x => {p with minutely := some x}
  | ("hourly", v) =>
    if p.hourly.isSome then .error "duplicate field"
    else (asOpt deserializeDataBlock v).map fun x => {p with hourly := some x}
  | ("daily", v) =>
    if p.daily.isSome then .error "duplicate field"
    else (asOpt deserializeDataBlock v).map fun x => {p with daily := some x}
  | ("alerts", v) =>
    if p.alerts.isSome then .error "duplicate field"
    else (asOpt (asList deserializeAlert) v).map fun x => {p with alerts := some x}
  | ("flags", v) =>
    if p.flags.isSome then .error "duplicate field"
    else (asOpt deserializeFlags v).map fun x => {p with flags := some x}
  | (_, _) => .ok p

/-- Finalize an `ApiResponse`: `latitude`, `longitude` and `timezone` are
required; each remaining field is optional and defaults to `None`. -/
def ApiResponse.finish (p : ApiResponseSlots) : De ApiResponse :=
  match p.latitude with
  | none => .error "missing field latitude"
  | some la =>
  match p.longitude with
  | none => .error "missing field longitude"
  | some lo =>
  match p.timezone with
  | none => .error "missing field timezone"
  | some tz => .ok {
      latitude := la
      longitude := lo
      timezone := tz
      currently := unwrapOpt p.currently
      minutely := unwrapOpt p.minutely
      hourly := unwrapOpt p.hourly
      daily := unwrapOpt p.daily
      alerts := unwrapOpt p.alerts
      flags := unwrapOpt p.flags }

/-- Derived `Deserialize` for `ApiResponse` (the entry point used by
`serde_json::from_reader::<ApiResponse>` in the tests). -/
def deserializeApiResponse : Json → De ApiResponse
  | .obj fields => fields.foldlM ApiResponse.step {} >>= ApiResponse.finish
  | _ => .error "invalid type: expected map"

/-- Derived `Serialize` for `ApiResponse` (the entry point used by
`serde_json::to_string::<ApiResponse>` in the tests). -/
def serializeApiResponse (r : ApiResponse) : Json :=
  .obj [
    ("latitude", .num r.latitude),
    ("longitude", .num r.longitude),
    ("timezone", .str r.timezone),
    ("currently", serOpt serializeDataPoint r.currently),
    ("minutely", serOpt serializeDataBlock r.minutely),
    ("hourly", serOpt serializeDataBlock r.hourly),
    ("daily", serOpt serializeDataBlock r.daily),
    ("alerts", serOpt (fun xs => Json.arr (xs.map serializeAlert)) r.alerts),
    ("flags", serOpt serializeFlags r.flags)]

-- basic computation lemmas for the deserialization monad

@[simp] theorem exmap_ok {α β : Type} (f : α → β) (x : α) :
    (Except.map f (.ok x) : Except String β) = .ok (f x) := rfl

@[simp] theorem exmap_error {α β : Type} (f : α → β) (e : String) :
    (Except.map f (.error e : Except String α) : Except String β) = .error e := rfl

@[simp] theorem okBind {α β : Type} (a : α) (f : α → Except String β) :
    (Except.ok a >>= f) = f a := rfl

@[simp] theorem errorBind {α β : Type} (e : String) (f : α → Except String β) :
    ((Except.error e : Except String α) >>= f) = .error e := rfl

@[simp] theorem foldlM_de_nil {σ α : Type} (f : σ → α → De σ) (init : σ) :
    List.foldlM f init [] = .ok init := rfl

@[simp] theorem foldlM_de_cons {σ α : Type} (f : σ → α → De σ) (init : σ)
    (a : α) (l : List α) :
    List.foldlM f init (a :: l) = f init a >>= fun s => List.foldlM f s l := rfl

@[simp] theorem unwrapOpt_some {α : Type} (o : Option α) :
    unwrapOpt (some o) = o := rfl

@[simp] theorem unwrapOpt_none {α : Type} :
    unwrapOpt (none : Option (Option α)) = none := rfl

-- primitive round-trip lemmas

@[simp] theorem asF64_num (q : Rat) : asF64 (.num q) = .ok q := rfl

@[simp] theorem asString_str (s : String) : asString (.str s) = .ok s := rfl

@[simp] theorem asU64_serU64 (u : U64) : asU64 (serU64 u) = .ok u := by
  have hden : ((u.val : Rat)).den = 1 := Rat.den_natCast u.val
  have hnum : ((u.val : Rat)).num = (u.val : Int) := Rat.num_natCast u.val
  have hcond : ((u.val : Rat)).den = 1 ∧ 0 ≤ ((u.val : Rat)).num ∧
      ((u.val : Rat)).num < 2 ^ 64 := by
    refine ⟨hden, ?_, ?_⟩
    · rw [hnum]; exact Int.natCast_nonneg _
    · rw [hnum]; exact_mod_cast u.property
  have hval : ((u.val : Rat)).num.toNat = u.val := by rw [hnum]; omega
  simp only [serU64, asU64, dif_pos hcond]
  exact congrArg Except.ok (Subtype.ext hval)

theorem icon_wire_round (i : Icon) : Icon.fromWire i.toWire = some i := by
  cases i <;> rfl

theorem precip_wire_round (t : PrecipType) :
    PrecipType.fromWire t.toWire = some t := by
  cases t <;> rfl

theorem units_wire_round (u : Units) : Units.fromWire u.toWire = some u := by
  cases u <;> rfl

theorem severity_wire_round (s : Severity) :
    Severity.fromWire s.toWire = some s := by
  cases s <;> rfl

@[simp] theorem asEnum_icon (i : Icon) :
    asEnum Icon.fromWire (.str i.toWire) = .ok i := by
  simp [asEnum, icon_wire_round]

@[simp] theorem asEnum_precip (t : PrecipType) :
    asEnum PrecipType.fromWire (.str t.toWire) = .ok t := by
  simp [asEnum, precip_wire_round]

@[simp] theorem asEnum_units (u : Units) :
    asEnum Units.fromWire (.str u.toWire) = .ok u := by
  simp [asEnum, units_wire_round]

@[simp] theorem asEnum_severity (s : Severity) :
    asEnum Severity.fromWire (.str s.toWire) = .ok s := by
  simp [asEnum, severity_wire_round]

@[simp] theorem asOptF64_round (o : Option Rat) :
    asOpt asF64 (serOpt Json.num o) = .ok o := by
  cases o <;> rfl

@[simp] theorem asOptU64_round (o : Option U64) :
    asOpt asU64 (serOpt serU64 o) = .ok o := by
  cases o with
  | none => rfl
  | some u =>
    show (asU64 (serU64 u)).map some = .ok (some u)
    rw [asU64_serU64]
    rfl

@[simp] theorem asOptStr_round (o : Option String) :
    asOpt asString (serOpt Json.str o) = .ok o := by
  cases o <;> rfl

@[simp] theorem asOptIcon_round (o : Option Icon) :
    asOpt (asEnum Icon.fromWire) (serOpt (fun i => Json.str i.toWire) o) = .ok o := by
  cases o with
  | none => rfl
  | some i =>
    show (asEnum Icon.fromWire (.str i.toWire)).map some = .ok (some i)
    rw [asEnum_icon]
    rfl

@[simp] theorem asOptPrecip_round (o : Option PrecipType) :
    asOpt (asEnum PrecipType.fromWire) (serOpt (fun t => Json.str t.toWire) o) = .ok o := by
  cases o with
  | none => rfl
  | some t =>
    show (asEnum PrecipType.fromWire (.str t.toWire)).map some = .ok (some t)
    rw [asEnum_precip]
    rfl

@[simp] theorem pure_de {α : Type} (a : α) : (pure a : De α) = .ok a := rfl

/-- Generic round trip for `Vec<T>` fields. -/
theorem asList_round {α : Type} (p : Json → De α) (s : α → Json)
    (hp : ∀ x, p (s x) = .ok x) (xs : List α) :
    asList p (.arr (xs.map s)) = .ok xs := by
  induction xs with
  | nil => rfl
  | cons x rest ih =>
    have ih2 : deList p (List.map s rest) = .ok rest := by
      simpa [asList] using ih
    simp [asList, deList, hp, ih2]

@[simp] theorem asListStr_round (xs : List String) :
    asList asString (.arr (xs.map Json.str)) = .ok xs :=
  asList_round asString Json.str asString_str xs

/-- Round trip for `Alert`: deserializing a serialized alert restores it. -/
theorem deserializeAlert_serialize (a : Alert) :
    deserializeAlert (serializeAlert a) = .ok a := by
  simp [serializeAlert, deserializeAlert, Alert.step, Alert.finish]

-- per-key computation rules for the `DataPoint` field dispatch (stated as
-- definitional equalities to keep rewriting cheap)

theorem dpstep_apparent_temperature (p : DataPointSlots) (v : Json) :
    DataPoint.step p ("apparentTemperature", v) =
      if p.apparent_temperature.isSome then .error "duplicate field"
      else (asOpt asF64 v).map fun x => {p with apparent_temperature := some x} := rfl

theorem dpstep_apparent_temperature_max (p : DataPointSlots) (v : Json) :
    DataPoint.step p ("apparentTemperatureMax", v) =
      if p.apparent_temperature_max.isSome then .error "duplicate field"
      else (asOpt asF64 v).map fun x => {p with apparent_temperature_max := some x} := rfl

theorem dpstep_apparent_temperature_max_time (p : DataPointSlots) (v : Json) :
    DataPoint.step p ("apparentTemperatureMaxTime", v) =
      if p.apparent_temperature_max_time.isSome then .error "duplicate field"
      else (asOpt asU64 v).map fun x => {p with apparent_temperature_max_time := some x} := rfl

theorem dpstep_apparent_temperature_min (p : DataPointSlots) (v : Json) :
    DataPoint.step p ("apparentTemperatureMin", v) =
      if p.apparent_temperature_min.isSome then .error "duplicate field"
      else (asOpt asF64 v).map fun x => {p with apparent_temperature_min := some x} := rfl

theorem dpstep_apparent_temperature_min_time (p : DataPointSlots) (v : Json) :
    DataPoint.step p ("apparentTemperatureMinTime", v) =
      if p.apparent_temperature_min_time.isSome then .error "duplicate field"
      else (asOpt asU64 v).map fun x => {p with apparent_temperature_min_time := some x} := rfl

theorem dpstep_cloud_cover (p : DataPointSlots) (v : Json) :
    DataPoint.step p ("cloudCover", v) =
      if p.cloud_cover.isSome then .error "duplicate field"
      else (asOpt asF64 v).map fun x => {p with cloud_cover := some x} := rfl

theorem dpstep_dew_point (p : DataPointSlots) (v : Json) :
    DataPoint.step p ("dewPoint", v) =
      if p.dew_point.isSome then .error "duplicate field"
      else (asOpt asF64 v).map fun x => {p with dew_point := some x} := rfl

theorem dpstep_humidity (p : DataPointSlots) (v : Json) :
    DataPoint.step p ("humidity", v) =
      if p.humidity.isSome then .error "duplicate field"
      else (asOpt asF64 v).map fun x => {p with humidity := some x} := rfl

theorem dpstep_icon (p : DataPointSlots) (v : Json) :
    DataPoint.step p ("icon", v) =
      if p.icon.isSome then .error "duplicate field"
      else (asOpt (asEnum Icon.fromWire) v).map fun x => {p with icon := some x} := rfl

theorem dpstep_moon_phase (p : DataPointSlots) (v : Json) :
    DataPoint.step p ("moonPhase", v) =
      if p.moon_phase.isSome then .error "duplicate field"
      else (asOpt asF64 v).map fun x => {p with moon_phase := some x} := rfl

theorem dpstep_nearest_storm_bearing (p : DataPointSlots) (v : Json) :
    DataPoint.step p ("nearestStormBearing", v) =
      if p.nearest_storm_bearing.isSome then .error "duplicate field"
      else (asOpt asF64 v).map fun x => {p with nearest_storm_bearing := some x} := rfl

theorem dpstep_nearest_storm_distance (p : DataPointSlots) (v : Json) :
    DataPoint.step p ("nearestStormDistance", v) =
      if p.nearest_storm_distance.isSome then .error "duplicate field"
      else (asOpt asF64 v).map fun x => {p with nearest_storm_distance := some x} := rfl

theorem dpstep_ozone (p : DataPointSlots) (v : Json) :
    DataPoint.step p ("ozone", v) =
      if p.ozone.isSome then .error "duplicate field"
      else (asOpt asF64 v).map fun x => {p with ozone := some x} := rfl

theorem dpstep_precip_accumulation (p : DataPointSlots) (v : Json) :
    DataPoint.step p ("precipAccumulation", v) =
      if p.precip_accumulation.isSome then .error "duplicate field"
      else (asOpt asF64 v).map fun x => {p with precip_accumulation := some x} := rfl

theorem dpstep_precip_intensity (p : DataPointSlots) (v : Json) :
    DataPoint.step p ("precipIntensity", v) =
      if p.precip_intensity.isSome then .error "duplicate field"
      else (asOpt asF64 v).map fun x => {p with precip_intensity := some x} := rfl

theorem dpstep_precip_intensity_max (p : DataPointSlots) (v : Json) :
    DataPoint.step p ("precipIntensityMax", v) =
      if p.precip_intensity_max.isSome then .error "duplicate field"
      else (asOpt asF64 v).map fun x => {p with precip_intensity_max := some x} := rfl

theorem dpstep_precip_intensity_max_time (p : DataPointSlots) (v : Json) :
    DataPoint.step p ("precipIntensityMaxTime", v) =
      if p.precip_intensity_max_time.isSome then .error "duplicate field"
      else (asOpt asU64 v).map fun x => {p with precip_intensity_max_time := some x} := rfl

theorem dpstep_precip_probability (p : DataPointSlots) (v : Json) :
    DataPoint.step p ("precipProbability", v) =
      if p.precip_probability.isSome then .error "duplicate field"
      else (asOpt asF64 v).map fun x => {p with precip_probability := some x} := rfl

theorem dpstep_precip_type (p : DataPointSlots) (v : Json) :
    DataPoint.step p ("precipType", v) =
      if p.precip_type.isSome then .error "duplicate field"
      else (asOpt (asEnum PrecipType.fromWire) v).map fun x => {p with precip_type := some x} := rfl

theorem dpstep_pressure (p : DataPointSlots) (v : Json) :
    DataPoint.step p ("pressure", v) =
      if p.pressure.isSome then .error "duplicate field"
      else (asOpt asF64 v).map fun x => {p with pressure := some x} := rfl

theorem dpstep_summary (p : DataPointSlots) (v : Json) :
    DataPoint.step p ("summary", v) =
      if p.summary.isSome then .error "duplicate field"
      else (asOpt asString v).map fun x => {p with summary := some x} := rfl

theorem dpstep_sunrise_time (p : DataPointSlots) (v : Json) :
    DataPoint.step p ("sunriseTime", v) =
      if p.sunrise_time.isSome then .error "duplicate field"
      else (asOpt asU64 v).map fun x => {p with sunrise_time := some x} := rfl

theorem dpstep_sunset_time (p : DataPointSlots) (v : Json) :
    DataPoint.step p ("sunsetTime", v) =
      if p.sunset_time.isSome then .error "duplicate field"
      else (asOpt asU64 v).map fun x => {p with sunset_time := some x} := rfl

theorem dpstep_temperature (p : DataPointSlots) (v : Json) :
    DataPoint.step p ("temperature", v) =
      if p.temperature.isSome then .error "duplicate field"
      else (asOpt asF64 v).map fun x => {p with temperature := some x} := rfl

theorem dpstep_temperature_max (p : DataPointSlots) (v : Json) :
    DataPoint.step p ("temperatureMax", v) =
      if p.temperature_max.isSome then .error "duplicate field"
      else (asOpt asF64 v).map fun x => {p with temperature_max := some x} := rfl

theorem dpstep_temperature_max_time (p : DataPointSlots) (v : Json) :
    DataPoint.step p ("temperatureMaxTime", v) =
      if p.temperature_max_time.isSome then .error "duplicate field"
      else (asOpt asU64 v).map fun x => {p with temperature_max_time := some x} := rfl

theorem dpstep_temperature_min (p : DataPointSlots) (v : Json) :
    DataPoint.step p ("temperatureMin", v) =
      if p.temperature_min.isSome then .error "duplicate field"
      else (asOpt asF64 v).map fun x => {p with temperature_min := some x} := rfl

theorem dpstep_temperature_min_time (p : DataPointSlots) (v : Json) :
    DataPoint.step p ("temperatureMinTime", v) =
      if p.temperature_min_time.isSome then .error "duplicate field"
      else (asOpt asU64 v).map fun x => {p with temperature_min_time := some x} := rfl

theorem dpstep_time (p : DataPointSlots) (v : Json) :
    DataPoint.step p ("time", v) =
      if p.time.isSome then .error "duplicate field"
      else (asU64 v).map fun x => {p with time := some x} := rfl

theorem dpstep_visibility (p : DataPointSlots) (v : Json) :
    DataPoint.step p ("visibility", v) =
      if p.visibility.isSome then .error "duplicate field"
      else (asOpt asF64 v).map fun x => {p with visibility := some x} := rfl

theorem dpstep_wind_bearing (p : DataPointSlots) (v : Json) :
    DataPoint.step p ("windBearing", v) =
      if p.wind_bearing.isSome then .error "duplicate field"
      else (asOpt asF64 v).map fun x => {p with wind_bearing := some x} := rfl

theorem dpstep_wind_gust (p : DataPointSlots) (v : Json) :
    DataPoint.step p ("windGust", v) =
      if p.wind_gust.isSome then .error "duplicate field"
      else (asOpt asF64 v).map fun x => {p with wind_gust := some x} := rfl

theorem dpstep_wind_gust_time (p : DataPointSlots) (v : Json) :
    DataPoint.step p ("windGustTime", v) =
      if p.wind_gust_time.isSome then .error "duplicate field"
      else (asOpt asU64 v).map fun x => {p with wind_gust_time := some x} := rfl

theorem dpstep_wind_speed (p : DataPointSlots) (v : Json) :
    DataPoint.step p ("windSpeed", v) =
      if p.wind_speed.isSome then .error "duplicate field"
      else (asOpt asF64 v).map fun x => {p with wind_speed := some x} := rfl

/-- Splitting a monadic fold over an appended entry list. -/
theorem foldlM_de_append {σ α : Type} (f : σ → α → De σ) (init : σ)
    (l1 l2 : List α) :
    List.foldlM f init (l1 ++ l2)
      = List.foldlM f init l1 >>= fun s => List.foldlM f s l2 := by
  induction l1 generalizing init with
  | nil => rfl
  | cons a l ih =>
    simp only [List.cons_append, foldlM_de_cons, bind_assoc]
    apply bind_congr
    intro s
    exact ih s

/-- Round trip for `DataPoint`, computed in four chunks of fields. -/
theorem deserializeDataPoint_serialize (d : DataPoint) :
    deserializeDataPoint (serializeDataPoint d) = .ok d := by
  have h0 : List.foldlM DataPoint.step (⟨none, none, none, none, none, none, none, none, none, none, none, none, none, none, none, none, none, none, none, none, none, none, none, none, none, none, none, none, none, none, none, none, none, none⟩ : DataPointSlots)
      [("apparentTemperature", serOpt Json.num d.apparent_temperature),
        ("apparentTemperatureMax", serOpt Json.num d.apparent_temperature_max),
        ("apparentTemperatureMaxTime", serOpt serU64 d.apparent_temperature_max_time),
        ("apparentTemperatureMin", serOpt Json.num d.apparent_temperature_min),
        ("apparentTemperatureMinTime", serOpt serU64 d.apparent_temperature_min_time),
        ("cloudCover", serOpt Json.num d.cloud_cover),
        ("dewPoint", serOpt Json.num d.dew_point),
        ("humidity", serOpt Json.num d.humidity),
        ("icon", serOpt (fun i => Json.str i.toWire) d.icon)] = .ok (⟨some d.apparent_temperature, some d.apparent_temperature_max, some d.apparent_temperature_max_time, some d.apparent_temperature_min, some d.apparent_temperature_min_time, some d.cloud_cover, some d.dew_point, some d.humidity, some d.icon, none, none, none, none, none, none, none, none, none, none, none, none, none, none, none, none, none, none, none, none, none, none, none, none, none⟩ : DataPointSlots) := by
    simp only [foldlM_de_cons, foldlM_de_nil, okBind,
    dpstep_apparent_temperature,
    dpstep_apparent_temperature_max,
    dpstep_apparent_temperature_max_time,
    dpstep_apparent_temperature_min,
    dpstep_apparent_temperature_min_time,
    dpstep_cloud_cover,
    dpstep_dew_point,
    dpstep_humidity,
    dpstep_icon,
    dpstep_moon_phase,
    dpstep_nearest_storm_bearing,
    dpstep_nearest_storm_distance,
    dpstep_ozone,
    dpstep_precip_accumulation,
    dpstep_precip_intensity,
    dpstep_precip_intensity_max,
    dpstep_precip_intensity_max_time,
    dpstep_precip_probability,
    dpstep_precip_type,
    dpstep_pressure,
    dpstep_summary,
    dpstep_sunrise_time,
    dpstep_sunset_time,
    dpstep_temperature,
    dpstep_temperature_max,
    dpstep_temperature_max_time,
    dpstep_temperature_min,
    dpstep_temperature_min_time,
    dpstep_time,
    dpstep_visibility,
    dpstep_wind_bearing,
    dpstep_wind_gust,
    dpstep_wind_gust_time,
    dpstep_wind_speed,
    Option.isSome_some, Option.isSome_none, Bool.false_eq_true, eq_self_iff_true,
    if_true, if_false, exmap_ok, asOptF64_round, asOptU64_round, asOptStr_round,
    asOptIcon_round, asOptPrecip_round, asU64_serU64]
  have h1 : List.foldlM DataPoint.step (⟨some d.apparent_temperature, some d.apparent_temperature_max, some d.apparent_temperature_max_time, some d.apparent_temperature_min, some d.apparent_temperature_min_time, some d.cloud_cover, some d.dew_point, some d.humidity, some d.icon, none, none, none, none, none, none, none, none, none, none, none, none, none, none, none, none, none, none, none, none, none, none, none, none, none⟩ : DataPointSlots)
      [("moonPhase", serOpt Json.num d.moon_phase),
        ("nearestStormBearing", serOpt Json.num d.nearest_storm_bearing),
        ("nearestStormDistance", serOpt Json.num d.nearest_storm_distance),
        ("ozone", serOpt Json.num d.ozone),
        ("precipAccumulation", serOpt Json.num d.precip_accumulation),
        ("precipIntensity", serOpt Json.num d.precip_intensity),
        ("precipIntensityMax", serOpt Json.num d.precip_intensity_max),
        ("precipIntensityMaxTime", serOpt serU64 d.precip_intensity_max_time),
        ("precipProbability", serOpt Json.num d.precip_probability)] = .ok (⟨some d.apparent_temperature, some d.apparent_temperature_max, some d.apparent_temperature_max_time, some d.apparent_temperature_min, some d.apparent_temperature_min_time, some d.cloud_cover, some d.dew_point, some d.humidity, some d.icon, some d.moon_phase, some d.nearest_storm_bearing, some d.nearest_storm_distance, some d.ozone, some d.precip_accumulation, some d.precip_intensity, some d.precip_intensity_max, some d.precip_intensity_max_time, some d.precip_probability, none, none, none, none, none, none, none, none, none, none, none, none, none, none, none, none⟩ : DataPointSlots) := by
    simp only [foldlM_de_cons, foldlM_de_nil, okBind,
    dpstep_apparent_temperature,
    dpstep_apparent_temperature_max,
    dpstep_apparent_temperature_max_time,
    dpstep_apparent_temperature_min,
    dpstep_apparent_temperature_min_time,
    dpstep_cloud_cover,
    dpstep_dew_point,
    dpstep_humidity,
    dpstep_icon,
    dpstep_moon_phase,
    dpstep_nearest_storm_bearing,
    dpstep_nearest_storm_distance,
    dpstep_ozone,
    dpstep_precip_accumulation,
    dpstep_precip_intensity,
    dpstep_precip_intensity_max,
    dpstep_precip_intensity_max_time,
    dpstep_precip_probability,
    dpstep_precip_type,
    dpstep_pressure,
    dpstep_summary,
    dpstep_sunrise_time,
    dpstep_sunset_time,
    dpstep_temperature,
    dpstep_temperature_max,
    dpstep_temperature_max_time,
    dpstep_temperature_min,
    dpstep_temperature_min_time,
    dpstep_time,
    dpstep_visibility,
    dpstep_wind_bearing,
    dpstep_wind_gust,
    dpstep_wind_gust_time,
    dpstep_wind_speed,
    Option.isSome_some, Option.isSome_none, Bool.false_eq_true, eq_self_iff_true,
    if_true, if_false, exmap_ok, asOptF64_round, asOptU64_round, asOptStr_round,
    asOptIcon_round, asOptPrecip_round, asU64_serU64]
  have h2 : List.foldlM DataPoint.step (⟨some d.apparent_temperature, some d.apparent_temperature_max, some d.apparent_temperature_max_time, some d.apparent_temperature_min, some d.apparent_temperature_min_time, some d.cloud_cover, some d.dew_point, some d.humidity, some d.icon, some d.moon_phase, some d.nearest_storm_bearing, some d.nearest_storm_distance, some d.ozone, some d.precip_accumulation, some d.precip_intensity, some d.precip_intensity_max, some d.precip_intensity_max_time, some d.precip_probability, none, none, none, none, none, none, none, none, none, none, none, none, none, none, none, none⟩ : DataPointSlots)
      [("precipType", serOpt (fun t => Json.str t.toWire) d.precip_type),
        ("pressure", serOpt Json.num d.pressure),
        ("summary", serOpt Json.str d.summary),
        ("sunriseTime", serOpt serU64 d.sunrise_time),
        ("sunsetTime", serOpt serU64 d.sunset_time),
        ("temperature", serOpt Json.num d.temperature),
        ("temperatureMax", serOpt Json.num d.temperature_max),
        ("temperatureMaxTime", serOpt serU64 d.temperature_max_time),
        ("temperatureMin", serOpt Json.num d.temperature_min)] = .ok (⟨some d.apparent_temperature, some d.apparent_temperature_max, some d.apparent_temperature_max_time, some d.apparent_temperature_min, some d.apparent_temperature_min_time, some d.cloud_cover, some d.dew_point, some d.humidity, some d.icon, some d.moon_phase, some d.nearest_storm_bearing, some d.nearest_storm_distance, some d.ozone, some d.precip_accumulation, some d.precip_intensity, some d.precip_intensity_max, some d.precip_intensity_max_time, some d.precip_probability, some d.precip_type, some d.pressure, some d.summary, some d.sunrise_time, some d.sunset_time, some d.temperature, some d.temperature_max, some d.temperature_max_time, some d.temperature_min, none, none, none, none, none, none, none⟩ : DataPointSlots) := by
    simp only [foldlM_de_cons, foldlM_de_nil, okBind,
    dpstep_apparent_temperature,
    dpstep_apparent_temperature_max,
    dpstep_apparent_temperature_max_time,
    dpstep_apparent_temperature_min,
    dpstep_apparent_temperature_min_time,
    dpstep_cloud_cover,
    dpstep_dew_point,
    dpstep_humidity,
    dpstep_icon,
    dpstep_moon_phase,
    dpstep_nearest_storm_bearing,
    dpstep_nearest_storm_distance,
    dpstep_ozone,
    dpstep_precip_accumulation,
    dpstep_precip_intensity,
    dpstep_precip_intensity_max,
    dpstep_precip_intensity_max_time,
    dpstep_precip_probability,
    dpstep_precip_type,
    dpstep_pressure,
    dpstep_summary,
    dpstep_sunrise_time,
    dpstep_sunset_time,
    dpstep_temperature,
    dpstep_temperature_max,
    dpstep_temperature_max_time,
    dpstep_temperature_min,
    dpstep_temperature_min_time,
    dpstep_time,
    dpstep_visibility,
    dpstep_wind_bearing,
    dpstep_wind_gust,
    dpstep_wind_gust_time,
    dpstep_wind_speed,
    Option.isSome_some, Option.isSome_none, Bool.false_eq_true, eq_self_iff_true,
    if_true, if_false, exmap_ok, asOptF64_round, asOptU64_round, asOptStr_round,
    asOptIcon_round, asOptPrecip_round, asU64_serU64]
  have h3 : List.foldlM DataPoint.step (⟨some d.apparent_temperature, some d.apparent_temperature_max, some d.apparent_temperature_max_time, some d.apparent_temperature_min, some d.apparent_temperature_min_time, some d.cloud_cover, some d.dew_point, some d.humidity, some d.icon, some d.moon_phase, some d.nearest_storm_bearing, some d.nearest_storm_distance, some d.ozone, some d.precip_accumulation, some d.precip_intensity, some d.precip_intensity_max, some d.precip_intensity_max_time, some d.precip_probability, some d.precip_type, some d.pressure, some d.summary, some d.sunrise_time, some d.sunset_time, some d.temperature, some d.temperature_max, some d.temperature_max_time, some d.temperature_min, none, none, none, none, none, none, none⟩ : DataPointSlots)
      [("temperatureMinTime", serOpt serU64 d.temperature_min_time),
        ("time", serU64 d.time),
        ("visibility", serOpt Json.num d.visibility),
        ("windBearing", serOpt Json.num d.wind_bearing),
        ("windGust", serOpt Json.num d.wind_gust),
        ("windGustTime", serOpt serU64 d.wind_gust_time),
        ("windSpeed", serOpt Json.num d.wind_speed)] = .ok (⟨some d.apparent_temperature, some d.apparent_temperature_max, some d.apparent_temperature_max_time, some d.apparent_temperature_min, some d.apparent_temperature_min_time, some d.cloud_cover, some d.dew_point, some d.humidity, some d.icon, some d.moon_phase, some d.nearest_storm_bearing, some d.nearest_storm_distance, some d.ozone, some d.precip_accumulation, some d.precip_intensity, some d.precip_intensity_max, some d.precip_intensity_max_time, some d.precip_probability, some d.precip_type, some d.pressure, some d.summary, some d.sunrise_time, some d.sunset_time, some d.temperature, some d.temperature_max, some d.temperature_max_time, some d.temperature_min, some d.temperature_min_time, some d.time, some d.visibility, some d.wind_bearing, some d.wind_gust, some d.wind_gust_time, some d.wind_speed⟩ : DataPointSlots) := by
    simp only [foldlM_de_cons, foldlM_de_nil, okBind,
    dpstep_apparent_temperature,
    dpstep_apparent_temperature_max,
    dpstep_apparent_temperature_max_time,
    dpstep_apparent_temperature_min,
    dpstep_apparent_temperature_min_time,
    dpstep_cloud_cover,
    dpstep_dew_point,
    dpstep_humidity,
    dpstep_icon,
    dpstep_moon_phase,
    dpstep_nearest_storm_bearing,
    dpstep_nearest_storm_distance,
    dpstep_ozone,
    dpstep_precip_accumulation,
    dpstep_precip_intensity,
    dpstep_precip_intensity_max,
    dpstep_precip_intensity_max_time,
    dpstep_precip_probability,
    dpstep_precip_type,
    dpstep_pressure,
    dpstep_summary,
    dpstep_sunrise_time,
    dpstep_sunset_time,
    dpstep_temperature,
    dpstep_temperature_max,
    dpstep_temperature_max_time,
    dpstep_temperature_min,
    dpstep_temperature_min_time,
    dpstep_time,
    dpstep_visibility,
    dpstep_wind_bearing,
    dpstep_wind_gust,
    dpstep_wind_gust_time,
    dpstep_wind_speed,
    Option.isSome_some, Option.isSome_none, Bool.false_eq_true, eq_self_iff_true,
    if_true, if_false, exmap_ok, asOptF64_round, asOptU64_round, asOptStr_round,
    asOptIcon_round, asOptPrecip_round, asU64_serU64]
  show List.foldlM DataPoint.step (⟨none, none, none, none, none, none, none, none, none, none, none, none, none, none, none, none, none, none, none, none, none, none, none, none, none, none, none, none, none, none, none, none, none, none⟩ : DataPointSlots)
      (      ([("apparentTemperature", serOpt Json.num d.apparent_temperature),
        ("apparentTemperatureMax", serOpt Json.num d.apparent_temperature_max),
        ("apparentTemperatureMaxTime", serOpt serU64 d.apparent_temperature_max_time),
        ("apparentTemperatureMin", serOpt Json.num d.apparent_temperature_min),
        ("apparentTemperatureMinTime", serOpt serU64 d.apparent_temperature_min_time),
        ("cloudCover", serOpt Json.num d.cloud_cover),
        ("dewPoint", serOpt Json.num d.dew_point),
        ("humidity", serOpt Json.num d.humidity),
        ("icon", serOpt (fun i => Json.str i.toWire) d.icon)] : List (String × Json)) ++
      (      ([("moonPhase", serOpt Json.num d.moon_phase),
        ("nearestStormBearing", serOpt Json.num d.nearest_storm_bearing),
        ("nearestStormDistance", serOpt Json.num d.nearest_storm_distance),
        ("ozone", serOpt Json.num d.ozone),
        ("precipAccumulation", serOpt Json.num d.precip_accumulation),
        ("precipIntensity", serOpt Json.num d.precip_intensity),
        ("precipIntensityMax", serOpt Json.num d.precip_intensity_max),
        ("precipIntensityMaxTime", serOpt serU64 d.precip_intensity_max_time),
        ("precipProbability", serOpt Json.num d.precip_probability)] : List (String × Json)) ++
      (      ([("precipType", serOpt (fun t => Json.str t.toWire) d.precip_type),
        ("pressure", serOpt Json.num d.pressure),
        ("summary", serOpt Json.str d.summary),
        ("sunriseTime", serOpt serU64 d.sunrise_time),
        ("sunsetTime", serOpt serU64 d.sunset_time),
        ("temperature", serOpt Json.num d.temperature),
        ("temperatureMax", serOpt Json.num d.temperature_max),
        ("temperatureMaxTime", serOpt serU64 d.temperature_max_time),
        ("temperatureMin", serOpt Json.num d.temperature_min)] : List (String × Json)) ++
            ([("temperatureMinTime", serOpt serU64 d.temperature_min_time),
        ("time", serU64 d.time),
        ("visibility", serOpt Json.num d.visibility),
        ("windBearing", serOpt Json.num d.wind_bearing),
        ("windGust", serOpt Json.num d.wind_gust),
        ("windGustTime", serOpt serU64 d.wind_gust_time),
        ("windSpeed", serOpt Json.num d.wind_speed)] : List (String × Json))))) >>= DataPoint.finish = .ok d
  rw [foldlM_de_append, h0, okBind, foldlM_de_append, h1, okBind,
    foldlM_de_append, h2, okBind, h3, okBind]
  rfl

@[simp] theorem asOptDataPoint_round (o : Option DataPoint) :
    asOpt deserializeDataPoint (serOpt serializeDataPoint o) = .ok o := by
  cases o with
  | none => rfl
  | some d =>
    show (deserializeDataPoint (serializeDataPoint d)).map some = .ok (some d)
    rw [deserializeDataPoint_serialize]
    rfl

@[simp] theorem asListDataPoint_round (xs : List DataPoint) :
    asList deserializeDataPoint (.arr (xs.map serializeDataPoint)) = .ok xs :=
  asList_round deserializeDataPoint serializeDataPoint deserializeDataPoint_serialize xs

/-- Round trip for `DataBlock`. -/
theorem deserializeDataBlock_serialize (b : DataBlock) :
    deserializeDataBlock (serializeDataBlock b) = .ok b := by
  simp [serializeDataBlock, deserializeDataBlock, DataBlock.step, DataBlock.finish]

@[simp] theorem asOptDataBlock_round (o : Option DataBlock) :
    asOpt deserializeDataBlock (serOpt serializeDataBlock o) = .ok o := by
  cases o with
  | none => rfl
  | some b =>
    show (deserializeDataBlock (serializeDataBlock b)).map some = .ok (some b)
    rw [deserializeDataBlock_serialize]
    rfl

@[simp] theorem asListAlert_round (xs : List Alert) :
    asList deserializeAlert (.arr (xs.map serializeAlert)) = .ok xs :=
  asList_round deserializeAlert serializeAlert deserializeAlert_serialize xs

@[simp] theorem asOptAlerts_round (o : Option (List Alert)) :
    asOpt (asList deserializeAlert)
      (serOpt (fun xs => Json.arr (xs.map serializeAlert)) o) = .ok o := by
  cases o with
  | none => rfl
  | some xs =>
    show (asList deserializeAlert (.arr (xs.map serializeAlert))).map some = .ok (some xs)
    rw [asListAlert_round]
    rfl

/-- Round trip for `Flags`. -/
theorem deserializeFlags_serialize (f : Flags) :
    deserializeFlags (serializeFlags f) = .ok f := by
  simp [serializeFlags, deserializeFlags, Flags.step, Flags.finish]

@[simp] theorem asOptFlags_round (o : Option Flags) :
    asOpt deserializeFlags (serOpt serializeFlags o) = .ok o := by
  cases o with
  | none => rfl
  | some f =>
    show (deserializeFlags (serializeFlags f)).map some = .ok (some f)
    rw [deserializeFlags_serialize]
    rfl

/-- Round trip for the whole `ApiResponse`: deserializing a serialized
response restores it exactly. -/
theorem deserializeApiResponse_serialize (r : ApiResponse) :
    deserializeApiResponse (serializeApiResponse r) = .ok r := by
  simp [serializeApiResponse, deserializeApiResponse, ApiResponse.step,
    ApiResponse.finish]

-- more computation rules, stated as definitional equalities

theorem asOpt_str {α : Type} (p : Json → De α) (s : String) :
    asOpt p (.str s) = (p (.str s)).map some := rfl

theorem asOpt_arr {α : Type} (p : Json → De α) (xs : List Json) :
    asOpt p (.arr xs) = (p (.arr xs)).map some := rfl

theorem asOpt_objv {α : Type} (p : Json → De α) (fs : List (String × Json)) :
    asOpt p (.obj fs) = (p (.obj fs)).map some := rfl

theorem asList_arr {α : Type} (p : Json → De α) (xs : List Json) :
    asList p (.arr xs) = deList p xs := rfl

theorem deList_cons {α : Type} (p : Json → De α) (v : Json) (vs : List Json) :
    deList p (v :: vs) = p v >>= fun x => deList p vs >>= fun xs => .ok (x :: xs) := rfl

theorem asEnum_str {α : Type} (fromWire : String → Option α) (s : String) :
    asEnum fromWire (.str s) =
      (match fromWire s with
        | some x => .ok x
        | none => .error "unknown variant") := rfl

-- concrete documents used by the claims below

/-- A minimal valid response document: only the three required fields are
present, every optional field is absent. -/
def docMinimal : Json :=
  .obj [("latitude", .num 1), ("longitude", .num 2), ("timezone", .str "UTC")]

/-- The response value `docMinimal` deserializes to. -/
def respMinimal : ApiResponse :=
  ⟨1, 2, "UTC", none, none, none, none, none, none⟩

/-- A response document whose `currently` data point carries the given icon
string. -/
def docWithIcon (s : String) : Json :=
  .obj [("latitude", .num 1), ("longitude", .num 2), ("timezone", .str "UTC"),
    ("currently", .obj [("time", .num 0), ("icon", .str s)])]

/-- A response document carrying a single alert object with the given
fields. -/
def docAlerts (fs : List (String × Json)) : Json :=
  .obj [("latitude", .num 1), ("longitude", .num 2), ("timezone", .str "UTC"),
    ("alerts", .arr [.obj fs])]

-- claims about the response data model

/-- C5: for every JSON document that deserializes successfully into an
`ApiResponse`, serializing the result and deserializing again yields the
same value: deserialize(serialize(deserialize(doc))) = deserialize(doc). -/
theorem claim_C5_serde_roundtrip (doc : Json) (r : ApiResponse)
    (_h : deserializeApiResponse doc = .ok r) :
    deserializeApiResponse (serializeApiResponse r) = .ok r :=
  deserializeApiResponse_serialize r

theorem claim_C5_serde_roundtrip_witness :
    deserializeApiResponse docMinimal = .ok respMinimal ∧
      deserializeApiResponse (serializeApiResponse respMinimal) = .ok respMinimal :=
  ⟨rfl, claim_C5_serde_roundtrip docMinimal respMinimal rfl⟩

/-- C6: a response document in which every optional field of `ApiResponse`
is absent deserializes successfully, with each optional field explicitly
unset (`none`); likewise an explicit `"currently": null`.  Absence of
optional fields never causes a deserialization error. -/
theorem claim_C6_optional_fields_absent (lat long : Rat) (tz : String) :
    deserializeApiResponse
        (.obj [("latitude", .num lat), ("longitude", .num long),
          ("timezone", .str tz)])
      = .ok ⟨lat, long, tz, none, none, none, none, none, none⟩ ∧
    deserializeApiResponse
        (.obj [("latitude", .num lat), ("longitude", .num long),
          ("timezone", .str tz), ("currently", .null)])
      = .ok ⟨lat, long, tz, none, none, none, none, none, none⟩ :=
  ⟨rfl, rfl⟩

/-- C7: an enumerated wire value matching no known variant (such as an icon
string like "meteor-shower") makes deserialization fail with an
unknown-variant error; it never succeeds with a default. -/
theorem claim_C7_unknown_tag_fails (s : String) (h : Icon.fromWire s = none) :
    asEnum Icon.fromWire (.str s) = .error "unknown variant" ∧
      deserializeApiResponse (docWithIcon s) = .error "unknown variant" := by
  have henum : asEnum Icon.fromWire (.str s) = .error "unknown variant" := by
    rw [asEnum_str, h]
  refine ⟨henum, ?_⟩
  have hinner : deserializeDataPoint (.obj [("time", .num 0), ("icon", .str s)])
      = .error "unknown variant" := by
    have ht : asU64 (Json.num 0) = .ok ⟨0, by decide⟩ := rfl
    simp only [deserializeDataPoint, foldlM_de_cons, foldlM_de_nil, okBind,
      dpstep_time, dpstep_icon, Option.isSome_some, Option.isSome_none,
      Bool.false_eq_true, eq_self_iff_true, if_true, if_false,
      ht, exmap_ok, asOpt_str, henum, exmap_error, errorBind]
  show (((asOpt deserializeDataPoint
      (.obj [("time", .num 0), ("icon", .str s)])).map
        (fun x => ApiResponseSlots.mk (some 1) (some 2) (some "UTC") (some x)
          none none none none none)
      >>= fun s2 => List.foldlM ApiResponse.step s2 []) >>= ApiResponse.finish)
    = .error "unknown variant"
  rw [asOpt_objv, hinner]
  rfl

theorem claim_C7_unknown_tag_fails_witness :
    Icon.fromWire "meteor-shower" = none ∧
      (asEnum Icon.fromWire (.str "meteor-shower") = .error "unknown variant" ∧
        deserializeApiResponse (docWithIcon "meteor-shower")
          = .error "unknown variant") :=
  ⟨rfl, claim_C7_unknown_tag_fails "meteor-shower" rfl⟩

/-- C10: serialization always emits every field, writing JSON `null` for
unset optional fields rather than omitting the key; hence
serialize(deserialize(doc)) need not be identical to doc even though the
structural round trip holds. -/
theorem claim_C10_serialize_emits_null :
    (∀ r : ApiResponse, (serializeApiResponse r).keys
        = ["latitude", "longitude", "timezone", "currently", "minutely",
          "hourly", "daily", "alerts", "flags"]) ∧
    (∀ d : DataPoint, (serializeDataPoint d).keys
        = ["apparentTemperature", "apparentTemperatureMax",
          "apparentTemperatureMaxTime", "apparentTemperatureMin",
          "apparentTemperatureMinTime", "cloudCover", "dewPoint", "humidity",
          "icon", "moonPhase", "nearestStormBearing", "nearestStormDistance",
          "ozone", "precipAccumulation", "precipIntensity",
          "precipIntensityMax", "precipIntensityMaxTime", "precipProbability",
          "precipType", "pressure", "summary", "sunriseTime", "sunsetTime",
          "temperature", "temperatureMax", "temperatureMaxTime",
          "temperatureMin", "temperatureMinTime", "time", "visibility",
          "windBearing", "windGust", "windGustTime", "windSpeed"]) ∧
    (∀ (lat long : Rat) (tz : String),
      serializeApiResponse ⟨lat, long, tz, none, none, none, none, none, none⟩
        = .obj [("latitude", .num lat), ("longitude", .num long),
            ("timezone", .str tz), ("currently", .null), ("minutely", .null),
            ("hourly", .null), ("daily", .null), ("alerts", .null),
            ("flags", .null)]) ∧
    (deserializeApiResponse docMinimal = .ok respMinimal ∧
      serializeApiResponse respMinimal ≠ docMinimal) := by
  refine ⟨fun r => rfl, fun d => rfl, fun lat long tz => rfl, rfl, ?_⟩
  intro hcontra
  exact absurd (congrArg Json.keys hcontra) (by decide)

-- machinery for the alert required-field analysis (claim C8)

/-- Inversion of a field arm of a struct visitor: duplicate check followed by
value parse and slot update. -/
theorem dup_arm_ok {α σ : Type} (c : Prop) [Decidable c] (pr : De α)
    (F : α → σ) (p2 : σ)
    (h : (if c then (.error "duplicate field" : De σ) else pr.map F) = .ok p2) :
    ∃ x, pr = .ok x ∧ p2 = F x := by
  by_cases hc : c
  · rw [if_pos hc] at h
    exact absurd h (by simp)
  · rw [if_neg hc] at h
    cases hpr : pr with
    | error e => rw [hpr, exmap_error] at h; exact absurd h (by simp)
    | ok x =>
      rw [hpr, exmap_ok] at h
      injection h with h2
      exact ⟨x, rfl, h2.symm⟩

theorem alertStep_pres_description (p : AlertSlots) (kv : String × Json)
    (p2 : AlertSlots) (h : Alert.step p kv = .ok p2)
    (hne : kv.1 ≠ "description") : p2.description = p.description := by
  obtain ⟨k, v⟩ := kv
  unfold Alert.step at h
  split at h <;>
    first
      | (obtain ⟨x, -, hp2⟩ := dup_arm_ok _ _ _ _ h; subst hp2; rfl)
      | simp_all

theorem alertStep_pres_regions (p : AlertSlots) (kv : String × Json)
    (p2 : AlertSlots) (h : Alert.step p kv = .ok p2)
    (hne : kv.1 ≠ "regions") : p2.regions = p.regions := by
  obtain ⟨k, v⟩ := kv
  unfold Alert.step at h
  split at h <;>
    first
      | (obtain ⟨x, -, hp2⟩ := dup_arm_ok _ _ _ _ h; subst hp2; rfl)
      | simp_all

theorem alertStep_pres_severity (p : AlertSlots) (kv : String × Json)
    (p2 : AlertSlots) (h : Alert.step p kv = .ok p2)
    (hne : kv.1 ≠ "severity") : p2.severity = p.severity := by
  obtain ⟨k, v⟩ := kv
  unfold Alert.step at h
  split at h <;>
    first
      | (obtain ⟨x, -, hp2⟩ := dup_arm_ok _ _ _ _ h; subst hp2; rfl)
      | simp_all

theorem alertStep_pres_time (p : AlertSlots) (kv : String × Json)
    (p2 : AlertSlots) (h : Alert.step p kv = .ok p2)
    (hne : kv.1 ≠ "time") : p2.time = p.time := by
  obtain ⟨k, v⟩ := kv
  unfold Alert.step at h
  split at h <;>
    first
      | (obtain ⟨x, -, hp2⟩ := dup_arm_ok _ _ _ _ h; subst hp2; rfl)
      | simp_all

theorem alertStep_pres_title (p : AlertSlots) (kv : String × Json)
    (p2 : AlertSlots) (h : Alert.step p kv = .ok p2)
    (hne : kv.1 ≠ "title") : p2.title = p.title := by
  obtain ⟨k, v⟩ := kv
  unfold Alert.step at h
  split at h <;>
    first
      | (obtain ⟨x, -, hp2⟩ := dup_arm_ok _ _ _ _ h; subst hp2; rfl)
      | simp_all

theorem alertStep_pres_uri (p : AlertSlots) (kv : String × Json)
    (p2 : AlertSlots) (h : Alert.step p kv = .ok p2)
    (hne : kv.1 ≠ "uri") : p2.uri = p.uri := by
  obtain ⟨k, v⟩ := kv
  unfold Alert.step at h
  split at h <;>
    first
      | (obtain ⟨x, -, hp2⟩ := dup_arm_ok _ _ _ _ h; subst hp2; rfl)
      | simp_all

/-- The alert visitor leaves a slot untouched over a whole entry list that
never mentions its key. -/
theorem alertFold_pres {β : Type} (sel : AlertSlots → Option β) (key : String)
    (hstep : ∀ p kv p2, Alert.step p kv = .ok p2 → kv.1 ≠ key → sel p2 = sel p) :
    ∀ (fs : List (String × Json)) (p r : AlertSlots), key ∉ fs.map Prod.fst →
      List.foldlM Alert.step p fs = .ok r → sel r = sel p := by
  intro fs
  induction fs with
  | nil =>
    intro p r _ h
    rw [foldlM_de_nil] at h
    injection h with h2
    rw [h2]
  | cons kv rest ih =>
    intro p r hk h
    rw [foldlM_de_cons] at h
    simp only [List.map_cons, List.mem_cons, not_or] at hk
    cases hstep0 : Alert.step p kv with
    | error e =>
      rw [hstep0, errorBind] at h
      exact absurd h (by simp)
    | ok p1 =>
      rw [hstep0, okBind] at h
      have e1 : sel p1 = sel p :=
        hstep p kv p1 hstep0 (fun hkk => hk.1 hkk.symm)
      have e2 : sel r = sel p1 := ih p1 r hk.2 h
      rw [e2, e1]

theorem alertFinish_missing_description (r : AlertSlots)
    (h : r.description = none) : ∃ e, Alert.finish r = .error e := by
  unfold Alert.finish
  repeat' split
  all_goals first | exact ⟨_, rfl⟩ | simp_all

theorem alertFinish_missing_regions (r : AlertSlots)
    (h : r.regions = none) : ∃ e, Alert.finish r = .error e := by
  unfold Alert.finish
  repeat' split
  all_goals first | exact ⟨_, rfl⟩ | simp_all

theorem alertFinish_missing_severity (r : AlertSlots)
    (h : r.severity = none) : ∃ e, Alert.finish r = .error e := by
  unfold Alert.finish
  repeat' split
  all_goals first | exact ⟨_, rfl⟩ | simp_all

theorem alertFinish_missing_time (r : AlertSlots)
    (h : r.time = none) : ∃ e, Alert.finish r = .error e := by
  unfold Alert.finish
  repeat' split
  all_goals first | exact ⟨_, rfl⟩ | simp_all

theorem alertFinish_missing_title (r : AlertSlots)
    (h : r.title = none) : ∃ e, Alert.finish r = .error e := by
  unfold Alert.finish
  repeat' split
  all_goals first | exact ⟨_, rfl⟩ | simp_all

theorem alertFinish_missing_uri (r : AlertSlots)
    (h : r.uri = none) : ∃ e, Alert.finish r = .error e := by
  unfold Alert.finish
  repeat' split
  all_goals first | exact ⟨_, rfl⟩ | simp_all

/-- Deserializing an alert object that lacks the given required key fails. -/
theorem alertDes_missing {β : Type} (sel : AlertSlots → Option β) (key : String)
    (hstep : ∀ p kv p2, Alert.step p kv = .ok p2 → kv.1 ≠ key → sel p2 = sel p)
    (hsel0 : sel ({} : AlertSlots) = none)
    (hfin : ∀ r, sel r = none → ∃ e, Alert.finish r = .error e)
    (fs : List (String × Json)) (hnot : key ∉ fs.map Prod.fst) :
    ∃ e, deserializeAlert (.obj fs) = .error e := by
  cases hfold : List.foldlM Alert.step ({} : AlertSlots) fs with
  | error e =>
    refine ⟨e, ?_⟩
    show List.foldlM Alert.step {} fs >>= Alert.finish = .error e
    rw [hfold, errorBind]
  | ok r =>
    have hsel : sel r = none := by
      rw [alertFold_pres sel key hstep fs {} r hnot hfold, hsel0]
    obtain ⟨e, he⟩ := hfin r hsel
    refine ⟨e, ?_⟩
    show List.foldlM Alert.step {} fs >>= Alert.finish = .error e
    rw [hfold, okBind, he]

/-- An error deserializing the single alert makes the whole response
document fail. -/
theorem docAlerts_err (fs : List (String × Json)) (e : String)
    (h : deserializeAlert (.obj fs) = .error e) :
    deserializeApiResponse (docAlerts fs) = .error e := by
  show (((asOpt (asList deserializeAlert) (.arr [.obj fs])).map
      (fun x => ApiResponseSlots.mk (some 1) (some 2) (some "UTC")
        none none none none (some x) none)
      >>= fun s2 => List.foldlM ApiResponse.step s2 []) >>= ApiResponse.finish)
    = .error e
  rw [asOpt_arr, asList_arr, deList_cons, h]
  rfl

/-- The keys of an alert that serde treats as required in `src/lib.rs`
(every `Alert` field except the `Option`-typed `expires`). -/
def requiredAlertKeys : List String :=
  ["description", "regions", "severity", "time", "title", "uri"]

/-- A complete alert object except that `expires` is omitted. -/
def alertNoExpires : List (String × Json) :=
  [("description", .str "d"), ("regions", .arr []), ("severity", .str "warning"),
    ("time", .num 0), ("title", .str "t"), ("uri", .str "u")]

/-- The response value `docAlerts alertNoExpires` deserializes to: the alert
parses successfully with `expires = none`. -/
def respNoExpires : ApiResponse :=
  ⟨1, 2, "UTC", none, none, none, none,
    some [⟨"d", none, [], .Warning, ⟨0, by decide⟩, "t", "u"⟩], none⟩

/-- C8 counterexample: the claim says omitting any of the alert fields
(including expiry) makes deserialization fail, but in `src/lib.rs`
`Alert.expires` is `Option<u64>`, so a document whose alert omits
`expires` deserializes successfully. -/
theorem claim_C8_counterexample :
    deserializeApiResponse (docAlerts alertNoExpires) = .ok respNoExpires := rfl

/-- C8 amended: within an alert, `description`, `regions`, `severity`,
`time`, `title` and `uri` are required — omitting any one of them makes
deserialization of the document fail — while `expires` is optional and its
absence yields the unset state. -/
theorem claim_C8_alert_required_amended :
    (∀ (fs : List (String × Json)) (k : String), k ∈ requiredAlertKeys →
      k ∉ fs.map Prod.fst →
      ∃ e, deserializeApiResponse (docAlerts fs) = .error e) ∧
    deserializeApiResponse (docAlerts alertNoExpires) = .ok respNoExpires := by
  refine ⟨?_, rfl⟩
  intro fs k hk hnot
  simp only [requiredAlertKeys, List.mem_cons, List.mem_singleton,
    List.not_mem_nil, or_false] at hk
  rcases hk with rfl | rfl | rfl | rfl | rfl | rfl
  · obtain ⟨e, he⟩ := alertDes_missing (fun r => r.description) "description"
      alertStep_pres_description rfl alertFinish_missing_description fs hnot
    exact ⟨e, docAlerts_err fs e he⟩
  · obtain ⟨e, he⟩ := alertDes_missing (fun r => r.regions) "regions"
      alertStep_pres_regions rfl alertFinish_missing_regions fs hnot
    exact ⟨e, docAlerts_err fs e he⟩
  · obtain ⟨e, he⟩ := alertDes_missing (fun r => r.severity) "severity"
      alertStep_pres_severity rfl alertFinish_missing_severity fs hnot
    exact ⟨e, docAlerts_err fs e he⟩
  · obtain ⟨e, he⟩ := alertDes_missing (fun r => r.time) "time"
      alertStep_pres_time rfl alertFinish_missing_time fs hnot
    exact ⟨e, docAlerts_err fs e he⟩
  · obtain ⟨e, he⟩ := alertDes_missing (fun r => r.title) "title"
      alertStep_pres_title rfl alertFinish_missing_title fs hnot
    exact ⟨e, docAlerts_err fs e he⟩
  · obtain ⟨e, he⟩ := alertDes_missing (fun r => r.uri) "uri"
      alertStep_pres_uri rfl alertFinish_missing_uri fs hnot
    exact ⟨e, docAlerts_err fs e he⟩

theorem claim_C8_alert_required_witness :
    ("time" ∈ requiredAlertKeys ∧
      "time" ∉ ([("description", Json.str "d")]).map Prod.fst) ∧
    (∃ e, deserializeApiResponse
      (docAlerts [("description", Json.str "d")]) = .error e) :=
  ⟨⟨by decide, by decide⟩,
    claim_C8_alert_required_amended.1 [("description", Json.str "d")] "time"
      (by decide) (by decide)⟩

/-!
The request-builder layer.  `build_url` in `src/lib.rs` formats
`"{base}/{key}/{lat:.16},{long:.16}"` (plus `,{time}` for the time-machine
variant), parses it with `reqwest::Url::parse` (rust-url 1.x) and `.unwrap()`,
then appends query pairs through `url.query_pairs_mut()` (the
`form_urlencoded` serializer).  The URL parser is external library code; it
is modelled here after rust-url 1.x for absolute `scheme://host/path` URLs:
tab/newline stripping and C0/space trimming, scheme validation, an
authority section delimited by `/ \x5c ? #`, host validation and lowercasing,
path segmentation with `.`/`..` collapsing and percent-encoding of the
DEFAULT_ENCODE_SET, and a raw query/fragment split.  (`%2e`-style dot
segments, percent-validation warnings and IDNA are outside the model's
scope; no theorem below depends on them.)
-/

-- generic character/list helpers

def concatMap {α β : Type} (f : α → List β) : List α → List β
  | [] => []
  | a :: l => f a ++ concatMap f l

/-- Break a list at the first element satisfying `p`; the matching element
stays at the head of the second component. -/
def breakAt (p : Char → Bool) : List Char → (List Char × List Char)
  | [] => ([], [])
  | c :: cs =>
    if p c then ([], c :: cs)
    else
      let r := breakAt p cs
      (c :: r.1, r.2)

/-- Split a list on separators chosen by `p` (separators are dropped; `n`
separators yield `n+1` chunks). -/
def splitBy (p : Char → Bool) : List Char → List (List Char)
  | [] => [[]]
  | c :: cs =>
    if p c then [] :: splitBy p cs
    else
      match splitBy p cs with
      | s :: ss => (c :: s) :: ss
      | [] => [[c]]

def intercalateChar (sep : Char) : List (List Char) → List Char
  | [] => []
  | [s] => s
  | s :: rest => s ++ sep :: intercalateChar sep rest

/-- The decimal digit characters. -/
def digitChar : Nat → Char
  | 0 => '0'
  | 1 => '1'
  | 2 => '2'
  | 3 => '3'
  | 4 => '4'
  | 5 => '5'
  | 6 => '6'
  | 7 => '7'
  | 8 => '8'
  | _ => '9'

/-- Decimal digits with explicit fuel (structural recursion so that the
kernel can evaluate it; the fuel is always sufficient since a number shrinks
by a factor of ten per digit). -/
def natDigitsGo : Nat → Nat → List Char
  | 0, n => [digitChar n]
  | fuel + 1, n =>
    if n < 10 then [digitChar n]
    else natDigitsGo fuel (n / 10) ++ [digitChar (n % 10)]

/-- Decimal digits of a natural number, most significant first. -/
def natDigits (n : Nat) : List Char := natDigitsGo n n

def natToStr (n : Nat) : String := String.mk (natDigits n)

def hexDigit (n : Nat) : Char :=
  if n < 10 then digitChar n
  else if n = 10 then 'A'
  else if n = 11 then 'B'
  else if n = 12 then 'C'
  else if n = 13 then 'D'
  else if n = 14 then 'E'
  else 'F'

/-- UTF-8 bytes of a character (code point), as percent-encoding operates on
bytes. -/
def utf8Bytes (c : Char) : List Nat :=
  let n := c.toNat
  if n < 128 then [n]
  else if n < 2048 then [192 + n / 64, 128 + n % 64]
  else if n < 65536 then [224 + n / 4096, 128 + (n / 64) % 64, 128 + n % 64]
  else [240 + n / 262144, 128 + (n / 4096) % 64, 128 + (n / 64) % 64, 128 + n % 64]

/-- `%XY` with uppercase hex digits, as `percent_encode_byte` produces. -/
def percentByte (b : Nat) : List Char := ['%', hexDigit (b / 16), hexDigit (b % 16)]

-- form_urlencoded (url 1.x `byte_serialize`): alphanumerics and `*-._`
-- unchanged, space becomes '+', every other byte is percent-encoded

def formByteUnchanged (n : Nat) : Bool :=
  decide (n = 42 ∨ n = 45 ∨ n = 46 ∨ n = 95 ∨ (48 ≤ n ∧ n ≤ 57) ∨
    (65 ≤ n ∧ n ≤ 90) ∨ (97 ≤ n ∧ n ≤ 122))

def formEncodeChar (c : Char) : List Char :=
  if c.toNat = 32 then ['+']
  else if formByteUnchanged c.toNat then [c]
  else concatMap percentByte (utf8Bytes c)

def formEncodeStr (s : String) : String :=
  String.mk (concatMap formEncodeChar s.data)

/-- `form_urlencoded::Serializer::append_pair` acting on the accumulated
query string: a `&` separator whenever the string is non-empty, then the
encoded name, `=`, and the encoded value. -/
def appendPair (q k v : String) : String :=
  (if q = "" then q else q ++ "&") ++ formEncodeStr k ++ "=" ++ formEncodeStr v

-- path encoding (url 1.x DEFAULT_ENCODE_SET: C0 controls, DEL and
-- non-ASCII, space, double quote, #, <, >, ?, backtick, curly braces)

def pathByteEncoded (n : Nat) : Bool :=
  decide (n ≤ 31 ∨ 127 ≤ n ∨ n = 32 ∨ n = 34 ∨ n = 35 ∨ n = 60 ∨ n = 62 ∨
    n = 63 ∨ n = 96 ∨ n = 123 ∨ n = 125)

def pathEncodeChar (c : Char) : List Char :=
  if pathByteEncoded c.toNat then concatMap percentByte (utf8Bytes c) else [c]

def encodeSeg (seg : List Char) : List Char := concatMap pathEncodeChar seg

-- the URL parser model

/-- rust-url removes tab, newline and carriage return anywhere in the
input. -/
def keepChar (c : Char) : Bool :=
  decide (c.toNat ≠ 9 ∧ c.toNat ≠ 10 ∧ c.toNat ≠ 13)

/-- rust-url trims leading/trailing C0 controls and spaces. -/
def isC0Space (c : Char) : Bool := decide (c.toNat ≤ 32)

def trimLeft (l : List Char) : List Char := l.dropWhile isC0Space

def trimRight (l : List Char) : List Char :=
  (l.reverse.dropWhile isC0Space).reverse

def isSchemeChar (c : Char) : Bool := c.isAlphanum || c = '+' || c = '-' || c = '.'

def validScheme : List Char → Bool
  | [] => false
  | c :: rest => c.isAlpha && rest.all isSchemeChar

def lowerChar (c : Char) : Char :=
  if 65 ≤ c.toNat && c.toNat ≤ 90 then Char.ofNat (c.toNat + 32) else c

/-- Characters forbidden in a host name (url 1.x). -/
def hostForbidden (c : Char) : Bool :=
  c.toNat == 0 || c.toNat == 9 || c.toNat == 10 || c.toNat == 13 ||
    c = ' ' || c = '#' || c = '%' || c = '/' || c = ':' || c = '?' ||
    c = '@' || c = '[' || c.toNat == 92 || c = ']'

/-- A path or authority separator: `/`, and `\x5c` for special schemes. -/
def isSep (c : Char) : Bool := decide (c.toNat = 47 ∨ c.toNat = 92)

/-- `?` or `#`: ends the path range. -/
def isQH (c : Char) : Bool := decide (c.toNat = 63 ∨ c.toNat = 35)

/-- `#`: ends the query range. -/
def isHash (c : Char) : Bool := decide (c.toNat = 35)

/-- `:`: ends the scheme. -/
def isColon (c : Char) : Bool := decide (c.toNat = 58)

/-- The characters after the last `@` (strips any userinfo). -/
def afterLastChar (ch : Char) (l : List Char) : List Char :=
  l.foldl (fun acc c => if c = ch then [] else acc ++ [c]) []

/-- Split `host[:port]` at the last colon. -/
def splitPort (l : List Char) : List Char × Option (List Char) :=
  if l.any isColon then
    let r := breakAt isColon l.reverse
    ((r.2.drop 1).reverse, some r.1.reverse)
  else (l, none)

/-- Parse a port string: empty means no port, digits up to 65535, anything
else is a parse error. -/
def portParse (l : List Char) : Option (Option Nat) :=
  if l.isEmpty then some none
  else if l.all Char.isDigit then
    let n := l.foldl (fun acc c => acc * 10 + (c.toNat - 48)) 0
    if n ≤ 65535 then some (some n) else none
  else none

/-- Parse and validate the authority into host and port. -/
def hostParse (auth : List Char) : Option (String × Option Nat) :=
  let hostport := afterLastChar '@' auth
  let hp := splitPort hostport
  if hp.1.isEmpty then none
  else if hp.1.any hostForbidden then none
  else
    match hp.2 with
    | none => some (String.mk (hp.1.map lowerChar), none)
    | some pl =>
      match portParse pl with
      | none => none
      | some po => some (String.mk (hp.1.map lowerChar), po)

/-- Dot-segment normalization: `.` segments are dropped, `..` pops the
previous segment, a trailing dot segment leaves a trailing empty segment;
ordinary segments are percent-encoded.  `acc` holds processed segments in
reverse. -/
def dotNorm (acc : List (List Char)) : List (List Char) → List (List Char)
  | [] => acc.reverse
  | s :: rest =>
    if s = ['.'] then
      (if rest.isEmpty then acc.reverse ++ [[]] else dotNorm acc rest)
    else if s = ['.', '.'] then
      (if rest.isEmpty then (acc.drop 1).reverse ++ [[]]
        else dotNorm (acc.drop 1) rest)
    else dotNorm (encodeSeg s :: acc) rest

/-- Serialize the path from its raw character range (which starts with a
separator whenever an authority is present). -/
def encodePath (raw : List Char) : String :=
  match raw with
  | [] => "/"
  | c :: rest =>
    if isSep c then "/" ++ String.mk (intercalateChar '/' (dotNorm [] (splitBy isSep rest)))
    else "/" ++ String.mk (intercalateChar '/' (dotNorm [] (splitBy isSep raw)))

/-- The parsed-URL value object (`reqwest::Url`). -/
structure Url where
  scheme : String
  host : String
  port : Option Nat
  path : String
  query : Option String
  fragment : Option String
  deriving DecidableEq

/-- `Url::as_str`: serialize the URL; a present-but-empty query keeps its
bare `?`. -/
def Url.toString (u : Url) : String :=
  u.scheme ++ "://" ++ u.host ++
    (match u.port with
      | none => ""
      | some p => ":" ++ natToStr p) ++
    u.path ++
    (match u.query with
      | none => ""
      | some q => "?" ++ q) ++
    (match u.fragment with
      | none => ""
      | some f => "#" ++ f)

/-- The parser core, after input cleanup: scheme, `//`, authority, path,
query, fragment. -/
def parseClean (cs : List Char) : Option Url :=
  let br := breakAt isColon cs
  match br.2 with
  | [] => none
  | _ :: afterColon =>
    if validScheme br.1 then
      match afterColon with
      | '/' :: '/' :: r2 =>
        let ar := breakAt (fun c => isSep c || isQH c) r2
        match hostParse ar.1 with
        | none => none
        | some hp =>
          let pr := breakAt isQH ar.2
          let qf : Option String × Option String :=
            match pr.2 with
            | '?' :: qrest =>
              let qr := breakAt isHash qrest
              (some (String.mk qr.1),
                match qr.2 with
                | _ :: f => some (String.mk f)
                | [] => none)
            | '#' :: f => (none, some (String.mk f))
            | _ => (none, none)
          some { scheme := String.mk (br.1.map lowerChar)
                 host := hp.1
                 port := hp.2
                 path := encodePath pr.1
                 query := qf.1
                 fragment := qf.2 }
      | _ => none
    else none

/-- `Url::parse` (modelled): strip tab/newline, trim C0/space at both ends,
then parse. -/
def parseUrl (s : String) : Option Url :=
  parseClean (trimRight (trimLeft (s.data.filter keepChar)))

/-- Rust `{:.16}` fixed-point formatting of the coordinate value (exact
rational model): round `q` scaled by `10^16` to the nearest integer with
ties to even — as Rust's exact float formatting does — then print sign,
integer part, `.` and exactly 16 fraction digits.  The scaled value is the
exact fraction `q.num * 10^16 / q.den`, handled with integer arithmetic
(floor `f`, remainder `r`, comparison of `2r` against the denominator). -/
def fmtFixed16 (q : Rat) : String :=
  let sn : Int := q.num * (10 ^ 16 : Int)
  let d : Int := (q.den : Int)
  let f : Int := sn.fdiv d
  let r : Int := sn - f * d
  let n : Int :=
    if 2 * r < d then f
    else if d < 2 * r then f + 1
    else if f % 2 = 0 then f else f + 1
  let sign := if q.num < 0 then "-" else ""
  let m := n.natAbs
  let ip := m / 10 ^ 16
  let fp := m % 10 ^ 16
  let fpd := natDigits fp
  sign ++ natToStr ip ++ "." ++
    String.mk (List.replicate (16 - fpd.length) '0' ++ fpd)

/-- `itertools::join`: concatenate with a separator between elements. -/
def join (xs : List String) (sep : String) : String :=
  match xs with
  | [] => ""
  | x :: rest => rest.foldl (fun acc y => acc ++ sep ++ y) x

/-- `serde_json::to_string` of a unit enum variant: the quoted wire
string. -/
def serdeUnitVariantJson (wire : String) : String := "\"" ++ wire ++ "\""

/-- `str::trim_matches('"')`: strip quote characters from both ends. -/
def trimMatchesQuote (s : String) : String :=
  String.mk
    (((s.data.dropWhile (fun c => c.toNat == 34)).reverse.dropWhile
      (fun c => c.toNat == 34)).reverse)

-- constants from `src/lib.rs`

def FORECAST_URL : String := "https://api.darksky.net/forecast"
def EXCLUDE : String := "exclude"
def EXTEND : String := "extend"
def LANG : String := "lang"
def UNITS : String := "units"

/-- The `excludes` value built in `build_url`: serde-serialize each tag,
strip the quotes, and comma-join in order. -/
def excludesValue (exclude : List ExcludeBlock) : String :=
  join (exclude.map fun e => trimMatchesQuote (serdeUnitVariantJson e.toWire)) ","

/-- `Vec::append`: move all elements of `other` onto the end of `self`,
leaving `other` empty. -/
def vecAppend {α : Type} (self other : List α) : List α × List α :=
  (self ++ other, [])

-- ForecastRequest and its builder, from `src/lib.rs`

structure ForecastRequest where
  api_key : String
  latitude : Rat
  longitude : Rat
  url : Url
  exclude : List ExcludeBlock
  extend : Option ExtendBy
  lang : Option Lang
  units : Option Units
  deriving DecidableEq

structure ForecastRequestBuilder where
  api_key : String
  latitude : Rat
  longitude : Rat
  exclude : List ExcludeBlock
  extend : Option ExtendBy
  lang : Option Lang
  units : Option Units
  deriving DecidableEq

def ForecastRequestBuilder.new (api_key : String) (latitude longitude : Rat) :
    ForecastRequestBuilder :=
  ⟨api_key, latitude, longitude, [], none, none, none⟩

/-- `exclude_block`: push one tag onto the exclusion vector. -/
def ForecastRequestBuilder.exclude_block (b : ForecastRequestBuilder)
    (e : ExcludeBlock) : ForecastRequestBuilder :=
  { b with exclude := b.exclude ++ [e] }

/-- `exclude_blocks(&mut v)`: `self.exclude.append(v)` moves the elements
out of the caller's vector; the second component is the caller's vector
after the call. -/
def ForecastRequestBuilder.exclude_blocks (b : ForecastRequestBuilder)
    (blocks : List ExcludeBlock) : ForecastRequestBuilder × List ExcludeBlock :=
  let r := vecAppend b.exclude blocks
  ({ b with exclude := r.1 }, r.2)

/-- The `extend` setter (named `setExtend` here because `extend` is the
field's projection). -/
def ForecastRequestBuilder.setExtend (b : ForecastRequestBuilder)
    (e : ExtendBy) : ForecastRequestBuilder :=
  { b with extend := some e }

/-- The `lang` setter. -/
def ForecastRequestBuilder.setLang (b : ForecastRequestBuilder)
    (l : Lang) : ForecastRequestBuilder :=
  { b with lang := some l }

/-- The `units` setter. -/
def ForecastRequestBuilder.setUnits (b : ForecastRequestBuilder)
    (u : Units) : ForecastRequestBuilder :=
  { b with units := some u }

/-- The URL string formatted by `ForecastRequestBuilder::build_url`. -/
def ForecastRequestBuilder.urlString (b : ForecastRequestBuilder) : String :=
  FORECAST_URL ++ "/" ++ b.api_key ++ "/" ++ fmtFixed16 b.latitude ++ "," ++
    fmtFixed16 b.longitude

/-- `ForecastRequestBuilder::build_url`: parse the formatted string
(`.unwrap()` is the `none` case), then append the query pairs for the
non-empty exclusion list and each set optional field, in that order. -/
def ForecastRequestBuilder.build_url (b : ForecastRequestBuilder) : Option Url :=
  match parseUrl b.urlString with
  | none => none
  | some url =>
    let q0 := match url.query with
      | none => ""
      | some q => q
    let q1 := if b.exclude.isEmpty then q0
      else appendPair q0 EXCLUDE (excludesValue b.exclude)
    let q2 := match b.extend with
      | none => q1
      | some e => appendPair q1 EXTEND (trimMatchesQuote (serdeUnitVariantJson e.toWire))
    let q3 := match b.lang with
      | none => q2
      | some l => appendPair q2 LANG (trimMatchesQuote (serdeUnitVariantJson l.toWire))
    let q4 := match b.units with
      | none => q3
      | some u => appendPair q3 UNITS (trimMatchesQuote (serdeUnitVariantJson u.toWire))
    some { url with query := some q4 }

/-- `ForecastRequestBuilder::build`. -/
def ForecastRequestBuilder.build (b : ForecastRequestBuilder) :
    Option ForecastRequest :=
  match b.build_url with
  | none => none
  | some u =>
    some ⟨b.api_key, b.latitude, b.longitude, u, b.exclude, b.extend, b.lang,
      b.units⟩

-- TimeMachineRequest and its builder, from `src/lib.rs`

structure TimeMachineRequest where
  api_key : String
  latitude : Rat
  longitude : Rat
  time : Nat
  url : Url
  exclude : List ExcludeBlock
  lang : Option Lang
  units : Option Units
  deriving DecidableEq

structure TimeMachineRequestBuilder where
  api_key : String
  latitude : Rat
  longitude : Rat
  time : Nat
  exclude : List ExcludeBlock
  lang : Option Lang
  units : Option Units
  deriving DecidableEq

def TimeMachineRequestBuilder.new (api_key : String) (latitude longitude : Rat)
    (time : Nat) : TimeMachineRequestBuilder :=
  ⟨api_key, latitude, longitude, time, [], none, none⟩

def TimeMachineRequestBuilder.exclude_block (b : TimeMachineRequestBuilder)
    (e : ExcludeBlock) : TimeMachineRequestBuilder :=
  { b with exclude := b.exclude ++ [e] }

def TimeMachineRequestBuilder.exclude_blocks (b : TimeMachineRequestBuilder)
    (blocks : List ExcludeBlock) :
    TimeMachineRequestBuilder × List ExcludeBlock :=
  let r := vecAppend b.exclude blocks
  ({ b with exclude := r.1 }, r.2)

def TimeMachineRequestBuilder.setLang (b : TimeMachineRequestBuilder)
    (l : Lang) : TimeMachineRequestBuilder :=
  { b with lang := some l }

def TimeMachineRequestBuilder.setUnits (b : TimeMachineRequestBuilder)
    (u : Units) : TimeMachineRequestBuilder :=
  { b with units := some u }

/-- The URL string formatted by `TimeMachineRequestBuilder::build_url`
(`"{base}/{key}/{lat:.16},{long:.16},{time}"`). -/
def TimeMachineRequestBuilder.urlString (b : TimeMachineRequestBuilder) : String :=
  FORECAST_URL ++ "/" ++ b.api_key ++ "/" ++ fmtFixed16 b.latitude ++ "," ++
    fmtFixed16 b.longitude ++ "," ++ natToStr b.time

def TimeMachineRequestBuilder.build_url (b : TimeMachineRequestBuilder) :
    Option Url :=
  match parseUrl b.urlString with
  | none => none
  | some url =>
    let q0 := match url.query with
      | none => ""
      | some q => q
    let q1 := if b.exclude.isEmpty then q0
      else appendPair q0 EXCLUDE (excludesValue b.exclude)
    let q2 := match b.lang with
      | none => q1
      | some l => appendPair q1 LANG (trimMatchesQuote (serdeUnitVariantJson l.toWire))
    let q3 := match b.units with
      | none => q2
      | some u => appendPair q2 UNITS (trimMatchesQuote (serdeUnitVariantJson u.toWire))
    some { url with query := some q3 }

def TimeMachineRequestBuilder.build (b : TimeMachineRequestBuilder) :
    Option TimeMachineRequest :=
  match b.build_url with
  | none => none
  | some u =>
    some ⟨b.api_key, b.latitude, b.longitude, b.time, u, b.exclude, b.lang,
      b.units⟩

-- character classes used by the URL lemmas

/-- A decimal digit, by code point. -/
def isDigitB (c : Char) : Bool := decide (48 ≤ c.toNat ∧ c.toNat ≤ 57)

/-- The characters `fmtFixed16` can produce: digits, `.` and `-`. -/
def fmtCharOK (c : Char) : Bool :=
  decide ((48 ≤ c.toNat ∧ c.toNat ≤ 57) ∨ c.toNat = 46 ∨ c.toNat = 45)

/-- The characters of a formatted coordinate pair: `fmtFixed16` output plus
the separating comma. -/
def coordChar (c : Char) : Bool := fmtCharOK c || decide (c.toNat = 44)

/-- A conservative set of characters that traverse the URL parser's path
handling unchanged: ASCII alphanumerics and `-` `_` `.` `~`. -/
def pathSafeChar (c : Char) : Bool :=
  decide ((48 ≤ c.toNat ∧ c.toNat ≤ 57) ∨ (65 ≤ c.toNat ∧ c.toNat ≤ 90) ∨
    (97 ≤ c.toNat ∧ c.toNat ≤ 122) ∨ c.toNat = 45 ∨ c.toNat = 95 ∨
    c.toNat = 46 ∨ c.toNat = 126)

-- basic string lemmas

theorem strData_append (s t : String) : (s ++ t).data = s.data ++ t.data := rfl

theorem strData_mk (l : List Char) : (String.mk l).data = l := rfl

theorem strExt {s t : String} (h : s.data = t.data) : s = t :=
  congrArg String.mk h

-- breakAt lemmas

theorem breakAt_nil (p : Char → Bool) : breakAt p [] = ([], []) := rfl

theorem breakAt_cons_pos {p : Char → Bool} {c : Char} (cs : List Char)
    (h : p c = true) : breakAt p (c :: cs) = ([], c :: cs) := by
  simp [breakAt, h]

theorem breakAt_cons_neg {p : Char → Bool} {c : Char} (cs : List Char)
    (h : p c = false) :
    breakAt p (c :: cs) = (c :: (breakAt p cs).1, (breakAt p cs).2) := by
  simp [breakAt, h]

theorem breakAt_none {p : Char → Bool} {l : List Char}
    (h : ∀ c ∈ l, p c = false) : breakAt p l = (l, []) := by
  induction l with
  | nil => rfl
  | cons c cs ih =>
    rw [breakAt_cons_neg cs (h c (List.mem_cons_self c cs)),
      ih (fun x hx => h x (List.mem_cons_of_mem c hx))]

theorem breakAt_append_none {p : Char → Bool} {l1 : List Char}
    (l2 : List Char) (h : ∀ c ∈ l1, p c = false) :
    breakAt p (l1 ++ l2) = (l1 ++ (breakAt p l2).1, (breakAt p l2).2) := by
  induction l1 with
  | nil => simp
  | cons c cs ih =>
    rw [List.cons_append, breakAt_cons_neg _ (h c (List.mem_cons_self c cs)),
      ih (fun x hx => h x (List.mem_cons_of_mem c hx))]
    rfl

-- splitBy lemmas

theorem splitBy_ne_nil (p : Char → Bool) (l : List Char) : splitBy p l ≠ [] := by
  induction l with
  | nil => simp [splitBy]
  | cons c cs ih =>
    rw [splitBy]
    split
    · simp
    · split
      · simp
      · simp

theorem splitBy_cons_sep {p : Char → Bool} {c : Char} (cs : List Char)
    (h : p c = true) : splitBy p (c :: cs) = [] :: splitBy p cs := by
  simp [splitBy, h]

theorem splitBy_cons_nonsep {p : Char → Bool} {c : Char} {cs : List Char}
    {s : List Char} {ss : List (List Char)} (h : p c = false)
    (h2 : splitBy p cs = s :: ss) :
    splitBy p (c :: cs) = (c :: s) :: ss := by
  rw [splitBy]
  simp only [h, Bool.false_eq_true, if_false]
  rw [h2]

theorem splitBy_sepfree {p : Char → Bool} {l : List Char}
    (h : ∀ c ∈ l, p c = false) : splitBy p l = [l] := by
  induction l with
  | nil => rfl
  | cons c cs ih =>
    exact splitBy_cons_nonsep (h c (List.mem_cons_self c cs))
      (ih (fun x hx => h x (List.mem_cons_of_mem c hx)))

theorem splitBy_append {p : Char → Bool} {l1 l2 : List Char}
    {s : List Char} {ss : List (List Char)}
    (h1 : ∀ c ∈ l1, p c = false) (h2 : splitBy p l2 = s :: ss) :
    splitBy p (l1 ++ l2) = (l1 ++ s) :: ss := by
  induction l1 with
  | nil => simpa using h2
  | cons c cs ih =>
    rw [List.cons_append]
    rw [splitBy_cons_nonsep (h1 c (List.mem_cons_self c cs))
      (ih (fun x hx => h1 x (List.mem_cons_of_mem c hx)))]
    simp

-- trim lemmas

theorem trimLeft_cons {c : Char} (l : List Char) (h : isC0Space c = false) :
    trimLeft (c :: l) = c :: l := by
  simp [trimLeft, List.dropWhile_cons, h]

theorem trimRight_getLast {l : List Char} (h : l ≠ [])
    (h2 : isC0Space (l.getLast h) = false) : trimRight l = l := by
  have hd := List.dropLast_append_getLast h
  calc trimRight l = trimRight (l.dropLast ++ [l.getLast h]) := by rw [hd]
    _ = l.dropLast ++ [l.getLast h] := by
        unfold trimRight
        rw [List.reverse_append]
        simp only [List.reverse_cons, List.reverse_nil, List.nil_append,
          List.singleton_append, List.dropWhile_cons, h2]
        simp
    _ = l := hd

-- digit and formatting character lemmas

theorem digitChar_digit (m : Nat) : isDigitB (digitChar m) = true := by
  unfold digitChar
  split <;> rfl

theorem natDigitsGo_digits (fuel : Nat) :
    ∀ (n : Nat) (c : Char), c ∈ natDigitsGo fuel n → isDigitB c = true := by
  induction fuel with
  | zero =>
    intro n c hc
    simp only [natDigitsGo, List.mem_singleton] at hc
    rw [hc]
    exact digitChar_digit n
  | succ fuel ih =>
    intro n c hc
    rw [natDigitsGo] at hc
    split at hc
    · simp only [List.mem_singleton] at hc
      rw [hc]
      exact digitChar_digit n
    · rcases List.mem_append.mp hc with h | h
      · exact ih _ _ h
      · simp only [List.mem_singleton] at h
        rw [h]
        exact digitChar_digit _

theorem natDigits_digits (n : Nat) :
    ∀ c ∈ natDigits n, isDigitB c = true :=
  fun c hc => natDigitsGo_digits n n c hc

theorem natDigitsGo_ne_nil (fuel n : Nat) : natDigitsGo fuel n ≠ [] := by
  cases fuel with
  | zero => simp [natDigitsGo]
  | succ fuel =>
    rw [natDigitsGo]
    split
    · simp
    · simp

theorem natDigits_ne_nil (n : Nat) : natDigits n ≠ [] := natDigitsGo_ne_nil n n

theorem isDigitB_fmtOK {c : Char} (h : isDigitB c = true) : fmtCharOK c = true := by
  simp only [isDigitB, decide_eq_true_eq] at h
  simp only [fmtCharOK, decide_eq_true_eq]
  omega

theorem fmt_chars (q : Rat) : ∀ c ∈ (fmtFixed16 q).data, fmtCharOK c = true := by
  intro c hc
  unfold fmtFixed16 at hc
  simp only [strData_append, strData_mk, List.mem_append] at hc
  rcases hc with ((hs | hi) | hd) | h0 | hf
  · split at hs
    · have hs2 : c = '-' := by simpa using hs
      rw [hs2]
      rfl
    · exact absurd hs (by simp)
  · exact isDigitB_fmtOK (natDigits_digits _ c hi)
  · have hd2 : c = '.' := by simpa using hd
    rw [hd2]
    rfl
  · rw [List.eq_of_mem_replicate h0]
    rfl
  · exact isDigitB_fmtOK (natDigits_digits _ c hf)

theorem natToStr_chars (n : Nat) : ∀ c ∈ (natToStr n).data, fmtCharOK c = true :=
  fun c hc => isDigitB_fmtOK (natDigits_digits n c hc)

-- inertness of the relevant character classes under the parser's predicates

theorem coordChar_toNat {c : Char} (h : coordChar c = true) :
    (48 ≤ c.toNat ∧ c.toNat ≤ 57) ∨ c.toNat = 46 ∨ c.toNat = 45 ∨ c.toNat = 44 := by
  simp only [coordChar, fmtCharOK, Bool.or_eq_true, decide_eq_true_eq] at h
  omega

theorem fmtCharOK_coord {c : Char} (h : fmtCharOK c = true) : coordChar c = true := by
  simp [coordChar, h]

theorem pathSafeChar_toNat {c : Char} (h : pathSafeChar c = true) :
    (48 ≤ c.toNat ∧ c.toNat ≤ 57) ∨ (65 ≤ c.toNat ∧ c.toNat ≤ 90) ∨
      (97 ≤ c.toNat ∧ c.toNat ≤ 122) ∨ c.toNat = 45 ∨ c.toNat = 95 ∨
      c.toNat = 46 ∨ c.toNat = 126 := by
  simpa only [pathSafeChar, decide_eq_true_eq] using h

/-- The inert character class for the URL pipeline: kept by the cleanup
filter, not trimmed, no separator or query/fragment introducer, and left
unchanged by path percent-encoding. -/
def urlInert (c : Char) : Prop :=
  keepChar c = true ∧ isC0Space c = false ∧ isSep c = false ∧
    isQH c = false ∧ pathByteEncoded c.toNat = false

theorem urlInert_of_toNat {c : Char}
    (h : (48 ≤ c.toNat ∧ c.toNat ≤ 57) ∨ (65 ≤ c.toNat ∧ c.toNat ≤ 90) ∨
      (97 ≤ c.toNat ∧ c.toNat ≤ 122) ∨ c.toNat = 44 ∨ c.toNat = 45 ∨
      c.toNat = 46 ∨ c.toNat = 95 ∨ c.toNat = 126) : urlInert c := by
  refine ⟨?_, ?_, ?_, ?_, ?_⟩ <;>
    simp only [keepChar, isC0Space, isSep, isQH, pathByteEncoded,
      decide_eq_true_eq, decide_eq_false_iff_not] <;> omega

theorem coordChar_inert {c : Char} (h : coordChar c = true) : urlInert c :=
  urlInert_of_toNat (by have := coordChar_toNat h; omega)

theorem pathSafeChar_inert {c : Char} (h : pathSafeChar c = true) : urlInert c :=
  urlInert_of_toNat (by have := pathSafeChar_toNat h; omega)

theorem urlInert_pathEncode {c : Char} (h : urlInert c) :
    pathEncodeChar c = [c] := by
  simp [pathEncodeChar, h.2.2.2.2]

theorem encodeSeg_inert {l : List Char} (h : ∀ c ∈ l, urlInert c) :
    encodeSeg l = l := by
  induction l with
  | nil => rfl
  | cons c cs ih =>
    show pathEncodeChar c ++ concatMap pathEncodeChar cs = c :: cs
    rw [urlInert_pathEncode (h c (List.mem_cons_self c cs))]
    have : concatMap pathEncodeChar cs = cs :=
      ih (fun x hx => h x (List.mem_cons_of_mem c hx))
    rw [this]
    rfl

-- snoc decompositions for the trailing-digit arguments

theorem snoc_of_ne_nil {α : Type} (l : List α) (h : l ≠ []) :
    ∃ L d, l = L ++ [d] ∧ d ∈ l :=
  ⟨l.dropLast, l.getLast h, (List.dropLast_append_getLast h).symm,
    List.getLast_mem h⟩

theorem fmt_ne_nil (q : Rat) : (fmtFixed16 q).data ≠ [] := by
  unfold fmtFixed16
  simp only [strData_append, strData_mk]
  intro h
  rw [List.append_eq_nil] at h
  rcases h with ⟨-, h2⟩
  rw [List.append_eq_nil] at h2
  exact natDigits_ne_nil _ h2.2

theorem filter_keep_all {l : List Char} (h : ∀ c ∈ l, keepChar c = true) :
    l.filter keepChar = l := by
  induction l with
  | nil => rfl
  | cons c cs ih =>
    rw [List.filter_cons_of_pos (h c (List.mem_cons_self c cs)),
      ih (fun x hx => h x (List.mem_cons_of_mem c hx))]

theorem fmtCharOK_inert {c : Char} (h : fmtCharOK c = true) : urlInert c :=
  coordChar_inert (fmtCharOK_coord h)

theorem trimRight_snoc (L : List Char) (d : Char) (hd : isC0Space d = false) :
    trimRight (L ++ [d]) = L ++ [d] := by
  unfold trimRight
  rw [List.reverse_append]
  simp only [List.reverse_cons, List.reverse_nil, List.nil_append,
    List.singleton_append, List.dropWhile_cons, hd]
  simp

/-- The filtered form of a tail that ends in formatter output decomposes as
`snoc` of a non-space character. -/
theorem tail_snoc_keep (A : List Char) (s : String)
    (hs : ∀ c ∈ s.data, fmtCharOK c = true) (hne : s.data ≠ []) :
    ∃ L d, (A ++ s.data).filter keepChar = L ++ [d] ∧ isC0Space d = false := by
  obtain ⟨L0, d, hld, hmem⟩ := snoc_of_ne_nil s.data hne
  have hdOK := hs d hmem
  have hdi := fmtCharOK_inert hdOK
  refine ⟨A.filter keepChar ++ L0.filter keepChar, d, ?_, hdi.2.1⟩
  rw [List.filter_append, hld, List.filter_append]
  have h1 : [d].filter keepChar = [d] := by
    rw [List.filter_cons_of_pos hdi.1]
    rfl
  rw [h1, List.append_assoc]

-- the parser on the fixed forecast prefix

/-- Evaluation of `parseClean` over the concrete
`https://api.darksky.net/forecast/` prefix, for an arbitrary tail. -/
theorem parseClean_forecast_eq (X : List Char) :
    parseClean ("https://api.darksky.net/forecast/".data ++ X) =
      (let pr := breakAt isQH ('/' :: ("forecast/".data ++ X))
       let qf : Option String × Option String :=
         match pr.2 with
         | '?' :: qrest =>
           let qr := breakAt isHash qrest
           (some (String.mk qr.1),
             match qr.2 with
             | _ :: f => some (String.mk f)
             | [] => none)
         | '#' :: f => (none, some (String.mk f))
         | _ => (none, none)
       some (Url.mk "https" "api.darksky.net" none (encodePath pr.1)
        qf.1 qf.2)) := rfl

/-- `Url::parse` of the formatted URL string reduces to `parseClean` on the
cleaned-up character list, whenever the tail ends in a non-space character
after filtering. -/
theorem parseUrl_pre (rest L : List Char) (d : Char)
    (hfilter : rest.filter keepChar = L ++ [d])
    (hd : isC0Space d = false) :
    parseUrl (String.mk ("https://api.darksky.net/forecast/".data ++ rest))
      = parseClean ("https://api.darksky.net/forecast/".data ++ (L ++ [d])) := by
  unfold parseUrl
  rw [strData_mk, List.filter_append]
  have hpre : "https://api.darksky.net/forecast/".data.filter keepChar
      = "https://api.darksky.net/forecast/".data := by decide
  rw [hpre, hfilter]
  rw [show "https://api.darksky.net/forecast/".data
      = 'h' :: "ttps://api.darksky.net/forecast/".data from rfl]
  rw [List.cons_append, trimLeft_cons _ (by decide)]
  rw [show 'h' :: ("ttps://api.darksky.net/forecast/".data ++ (L ++ [d]))
      = ('h' :: ("ttps://api.darksky.net/forecast/".data ++ L)) ++ [d] from by
    simp]
  rw [trimRight_snoc _ _ hd]

theorem parseUrl_forecast_some (rest L : List Char) (d : Char)
    (hfilter : rest.filter keepChar = L ++ [d])
    (hd : isC0Space d = false) :
    ∃ u, parseUrl (String.mk ("https://api.darksky.net/forecast/".data ++ rest))
      = some u := by
  rw [parseUrl_pre rest L d hfilter hd, parseClean_forecast_eq]
  exact ⟨_, rfl⟩

theorem natToStr_ne_nil (n : Nat) : (natToStr n).data ≠ [] := natDigits_ne_nil n

/-- The formatted forecast URL string, as the fixed prefix plus its
key/coordinates tail. -/
theorem forecast_urlString_data (b : ForecastRequestBuilder) :
    b.urlString.data
      = "https://api.darksky.net/forecast/".data ++
        (b.api_key.data ++ '/' :: ((fmtFixed16 b.latitude).data ++
          ',' :: (fmtFixed16 b.longitude).data)) := by
  unfold ForecastRequestBuilder.urlString FORECAST_URL
  simp [strData_append, List.append_assoc]

/-- The formatted time-machine URL string, likewise. -/
theorem timemachine_urlString_data (b : TimeMachineRequestBuilder) :
    b.urlString.data
      = "https://api.darksky.net/forecast/".data ++
        (b.api_key.data ++ '/' :: ((fmtFixed16 b.latitude).data ++
          ',' :: ((fmtFixed16 b.longitude).data ++
            ',' :: (natToStr b.time).data))) := by
  unfold TimeMachineRequestBuilder.urlString FORECAST_URL
  simp [strData_append, List.append_assoc]

/-- C1: for every reachable builder state of either builder — any API key,
any coordinates, any optional fields — `build()` succeeds: the internal
`Url::parse` of the formatted URL string always succeeds, so neither
builder's `build` can panic. -/
theorem claim_C1_build_total :
    (∀ b : ForecastRequestBuilder, ∃ r, b.build = some r) ∧
    (∀ b : TimeMachineRequestBuilder, ∃ r, b.build = some r) := by
  constructor
  · intro b
    have hmk : b.urlString = String.mk
        ("https://api.darksky.net/forecast/".data ++
          (b.api_key.data ++ '/' :: ((fmtFixed16 b.latitude).data ++
            ',' :: (fmtFixed16 b.longitude).data))) :=
      strExt (by rw [strData_mk]; exact forecast_urlString_data b)
    obtain ⟨L, dd, hf, hd⟩ := tail_snoc_keep
      (b.api_key.data ++ '/' :: ((fmtFixed16 b.latitude).data ++ [',']))
      (fmtFixed16 b.longitude) (fmt_chars _) (fmt_ne_nil _)
    have hR : b.api_key.data ++ '/' :: ((fmtFixed16 b.latitude).data ++
          ',' :: (fmtFixed16 b.longitude).data)
        = (b.api_key.data ++ '/' :: ((fmtFixed16 b.latitude).data ++ [','])) ++
          (fmtFixed16 b.longitude).data := by
      simp [List.append_assoc]
    obtain ⟨u, hu⟩ := parseUrl_forecast_some
      (b.api_key.data ++ '/' :: ((fmtFixed16 b.latitude).data ++
        ',' :: (fmtFixed16 b.longitude).data))
      L dd (by rw [hR]; exact hf) hd
    have hbu : ∃ v, b.build_url = some v := by
      unfold ForecastRequestBuilder.build_url
      rw [hmk, hu]
      exact ⟨_, rfl⟩
    obtain ⟨v, hv⟩ := hbu
    refine ⟨⟨b.api_key, b.latitude, b.longitude, v, b.exclude, b.extend,
      b.lang, b.units⟩, ?_⟩
    unfold ForecastRequestBuilder.build
    rw [hv]
  · intro b
    have hmk : b.urlString = String.mk
        ("https://api.darksky.net/forecast/".data ++
          (b.api_key.data ++ '/' :: ((fmtFixed16 b.latitude).data ++
            ',' :: ((fmtFixed16 b.longitude).data ++
              ',' :: (natToStr b.time).data)))) :=
      strExt (by rw [strData_mk]; exact timemachine_urlString_data b)
    obtain ⟨L, dd, hf, hd⟩ := tail_snoc_keep
      (b.api_key.data ++ '/' :: ((fmtFixed16 b.latitude).data ++
        ',' :: ((fmtFixed16 b.longitude).data ++ [','])))
      (natToStr b.time) (natToStr_chars _) (natToStr_ne_nil _)
    have hR : b.api_key.data ++ '/' :: ((fmtFixed16 b.latitude).data ++
          ',' :: ((fmtFixed16 b.longitude).data ++ ',' :: (natToStr b.time).data))
        = (b.api_key.data ++ '/' :: ((fmtFixed16 b.latitude).data ++
            ',' :: ((fmtFixed16 b.longitude).data ++ [',']))) ++
          (natToStr b.time).data := by
      simp [List.append_assoc]
    obtain ⟨u, hu⟩ := parseUrl_forecast_some
      (b.api_key.data ++ '/' :: ((fmtFixed16 b.latitude).data ++
        ',' :: ((fmtFixed16 b.longitude).data ++ ',' :: (natToStr b.time).data)))
      L dd (by rw [hR]; exact hf) hd
    have hbu : ∃ v, b.build_url = some v := by
      unfold TimeMachineRequestBuilder.build_url
      rw [hmk, hu]
      exact ⟨_, rfl⟩
    obtain ⟨v, hv⟩ := hbu
    refine ⟨⟨b.api_key, b.latitude, b.longitude, b.time, v, b.exclude,
      b.lang, b.units⟩, ?_⟩
    unfold TimeMachineRequestBuilder.build
    rw [hv]

/-- C9: `exclude_blocks` moves the elements of the caller's vector into the
builder (`Vec::append`): afterwards the caller's vector is empty and the
builder's exclusion list has gained the elements, in order, for both
builders. -/
theorem claim_C9_exclude_blocks_moves :
    (∀ (b : ForecastRequestBuilder) (v : List ExcludeBlock),
      (b.exclude_blocks v).2 = [] ∧
        (b.exclude_blocks v).1.exclude = b.exclude ++ v) ∧
    (∀ (b : TimeMachineRequestBuilder) (v : List ExcludeBlock),
      (b.exclude_blocks v).2 = [] ∧
        (b.exclude_blocks v).1.exclude = b.exclude ++ v) :=
  ⟨fun _ _ => ⟨rfl, rfl⟩, fun _ _ => ⟨rfl, rfl⟩⟩

/-- The builder state of the spec's worked example: API key
`"some_api_key"`, latitude `6.66` (the exact decimal `333/50`), longitude
`66.6` (`333/5`), exclusions `[Hourly, Daily, Alerts]` added through one
single add and one bulk add, extend `Hourly`, language `Arabic`, units
`Imperial`. -/
def c3Builder : ForecastRequestBuilder :=
  ((((((ForecastRequestBuilder.new "some_api_key" (mkRat 333 50)
    (mkRat 333 5)).exclude_block .Hourly).exclude_blocks
    [.Daily, .Alerts]).1.setExtend .Hourly).setLang .Arabic).setUnits
    .Imperial)

/-- C3, counterexample: the example request's built URL does not carry the
claimed query string `exclude=hourly,daily,alerts&extend=hourly&lang=ar&units=us`;
`query_pairs_mut().append_pair` percent-encodes the commas of the exclude
value. -/
theorem claim_C3_query_counterexample :
    c3Builder.build.map (fun r => r.url.query) ≠
      some (some "exclude=hourly,daily,alerts&extend=hourly&lang=ar&units=us") := by
  decide

/-- C3, amended: building the example request yields a URL whose query
string is exactly
`exclude=hourly%2Cdaily%2Calerts&extend=hourly&lang=ar&units=us` — commas
in the exclude value are percent-encoded as `%2C`, everything else is as
the claim states (order, comma-joining before encoding, one parameter per
set field). -/
theorem claim_C3_query_amended :
    c3Builder.build.map (fun r => r.url.query) =
      some (some "exclude=hourly%2Cdaily%2Calerts&extend=hourly&lang=ar&units=us") := by
  decide

-- evaluation of the path pipeline over inert segments, for C4

/-- `parseClean` on the forecast prefix when the tail holds no `?` or `#`:
the query and fragment are absent and the whole range is the path. -/
theorem parseClean_forecast_noQH (X : List Char)
    (hX : ∀ c ∈ X, isQH c = false) :
    parseClean ("https://api.darksky.net/forecast/".data ++ X)
      = some (Url.mk "https" "api.darksky.net" none
          (encodePath ('/' :: ("forecast/".data ++ X))) none none) := by
  rw [parseClean_forecast_eq]
  have hall : ∀ c ∈ '/' :: ("forecast/".data ++ X), isQH c = false := by
    intro c hc
    rcases List.mem_cons.mp hc with h | h
    · rw [h]; decide
    · rcases List.mem_append.mp h with h2 | h2
      · have hf : ∀ c ∈ ("forecast/".data : List Char), isQH c = false := by
          decide
        exact hf c h2
      · exact hX c h2
  rw [breakAt_none hall]

theorem encodePath_slash (X : List Char) :
    encodePath ('/' :: X)
      = "/" ++ String.mk (intercalateChar '/' (dotNorm [] (splitBy isSep X))) :=
  rfl

theorem dotNorm_nil (acc : List (List Char)) : dotNorm acc [] = acc.reverse :=
  rfl

/-- A segment that is neither `.` nor `..` is percent-encoded and kept. -/
theorem dotNorm_cons_plain (acc : List (List Char)) (s : List Char)
    (ss : List (List Char)) (h1 : s ≠ ['.']) (h2 : s ≠ ['.', '.']) :
    dotNorm acc (s :: ss) = dotNorm (encodeSeg s :: acc) ss := by
  rw [dotNorm]
  rw [if_neg h1, if_neg h2]

/-- Every character of the formatted coordinate pair is inert in the URL
pipeline. -/
theorem coords_inert (lat long : Rat) :
    ∀ c ∈ (fmtFixed16 lat).data ++ ',' :: (fmtFixed16 long).data,
      urlInert c := by
  intro c hc
  rcases List.mem_append.mp hc with h | h
  · exact fmtCharOK_inert (fmt_chars lat c h)
  · rcases List.mem_cons.mp h with h2 | h2
    · rw [h2]; exact coordChar_inert (by decide)
    · exact fmtCharOK_inert (fmt_chars long c h2)

/-- C4, counterexample: with API key `"a b"` the built URL is not the
claimed exact template — the space of the key is percent-encoded in the
path (`a%20b`), so the key does not appear verbatim. -/
theorem claim_C4_counterexample :
    ((ForecastRequestBuilder.new "a b" 1 1).build.map fun r =>
        Url.toString r.url)
      ≠ some
        "https://api.darksky.net/forecast/a b/1.0000000000000000,1.0000000000000000?" := by
  decide

/-- C4, amended: for every forecast request with all optional parameters
unset whose API key consists of URL-path-safe characters (alphanumerics,
`-`, `_`, `.`, `~`) and is not `.` or `..`, the built URL is exactly
`https://api.darksky.net/forecast/<key>/<lat>,<long>?` — 16 fractional
digits for each coordinate, a bare trailing `?` and no query parameters.
Keys with other characters are percent-encoded in the path instead of
appearing verbatim. -/
theorem claim_C4_bare_query_amended (k : String) (lat long : Rat)
    (hk : ∀ c ∈ k.data, pathSafeChar c = true)
    (h1 : k.data ≠ ['.']) (h2 : k.data ≠ ['.', '.']) :
    ((ForecastRequestBuilder.new k lat long).build.map fun r =>
        Url.toString r.url)
      = some ("https://api.darksky.net/forecast/" ++ k ++ "/" ++
          fmtFixed16 lat ++ "," ++ fmtFixed16 long ++ "?") := by
  have hki : ∀ c ∈ k.data, urlInert c := fun c hc => pathSafeChar_inert (hk c hc)
  have hci := coords_inert lat long
  have hmk : (ForecastRequestBuilder.new k lat long).urlString = String.mk
      ("https://api.darksky.net/forecast/".data ++
        (k.data ++ '/' :: ((fmtFixed16 lat).data ++
          ',' :: (fmtFixed16 long).data))) :=
    strExt (by
      rw [strData_mk]
      exact forecast_urlString_data (ForecastRequestBuilder.new k lat long))
  have hkeep : ∀ c ∈ k.data ++ '/' :: ((fmtFixed16 lat).data ++
      ',' :: (fmtFixed16 long).data), keepChar c = true := by
    intro c hc
    rcases List.mem_append.mp hc with h | h
    · exact (hki c h).1
    · rcases List.mem_cons.mp h with h2 | h2
      · rw [h2]; decide
      · exact (hci c h2).1
  have hQH : ∀ c ∈ k.data ++ '/' :: ((fmtFixed16 lat).data ++
      ',' :: (fmtFixed16 long).data), isQH c = false := by
    intro c hc
    rcases List.mem_append.mp hc with h | h
    · exact (hki c h).2.2.2.1
    · rcases List.mem_cons.mp h with h2 | h2
      · rw [h2]; decide
      · exact (hci c h2).2.2.2.1
  have hfk : (k.data ++ '/' :: ((fmtFixed16 lat).data ++
      ',' :: (fmtFixed16 long).data)).filter keepChar
      = k.data ++ '/' :: ((fmtFixed16 lat).data ++
        ',' :: (fmtFixed16 long).data) := filter_keep_all hkeep
  obtain ⟨L0, d, hld, hdm⟩ := snoc_of_ne_nil (fmtFixed16 long).data
    (fmt_ne_nil long)
  have hdi : urlInert d := fmtCharOK_inert (fmt_chars long d hdm)
  have hsplit : k.data ++ '/' :: ((fmtFixed16 lat).data ++
      ',' :: (fmtFixed16 long).data)
      = (k.data ++ '/' :: ((fmtFixed16 lat).data ++ ',' :: L0)) ++ [d] := by
    rw [hld]
    simp [List.append_assoc]
  have hpre := parseUrl_pre
    (k.data ++ '/' :: ((fmtFixed16 lat).data ++ ',' :: (fmtFixed16 long).data))
    (k.data ++ '/' :: ((fmtFixed16 lat).data ++ ',' :: L0)) d
    (hfk.trans hsplit) hdi.2.1
  rw [← hsplit] at hpre
  have hu := hpre.trans (parseClean_forecast_noQH _ hQH)
  have hbu : (ForecastRequestBuilder.new k lat long).build_url
      = some (Url.mk "https" "api.darksky.net" none
          (encodePath ('/' :: ("forecast/".data ++
            (k.data ++ '/' :: ((fmtFixed16 lat).data ++
              ',' :: (fmtFixed16 long).data)))))
          (some "") none) := by
    unfold ForecastRequestBuilder.build_url
    rw [hmk, hu]
    rfl
  have hs1 : splitBy isSep ((fmtFixed16 lat).data ++
      ',' :: (fmtFixed16 long).data)
      = [(fmtFixed16 lat).data ++ ',' :: (fmtFixed16 long).data] :=
    splitBy_sepfree (fun c hc => (hci c hc).2.2.1)
  have hs2 : splitBy isSep ('/' :: ((fmtFixed16 lat).data ++
      ',' :: (fmtFixed16 long).data))
      = [] :: [(fmtFixed16 lat).data ++ ',' :: (fmtFixed16 long).data] := by
    rw [splitBy_cons_sep _ (by decide), hs1]
  have hs3 : splitBy isSep (k.data ++ '/' :: ((fmtFixed16 lat).data ++
      ',' :: (fmtFixed16 long).data))
      = k.data :: [(fmtFixed16 lat).data ++ ',' :: (fmtFixed16 long).data] := by
    have := splitBy_append (fun c hc => (hki c hc).2.2.1) hs2
    simpa using this
  have hs4 : splitBy isSep ('/' :: (k.data ++ '/' :: ((fmtFixed16 lat).data ++
      ',' :: (fmtFixed16 long).data)))
      = [] :: k.data ::
        [(fmtFixed16 lat).data ++ ',' :: (fmtFixed16 long).data] := by
    rw [splitBy_cons_sep _ (by decide), hs3]
  have hs5 : splitBy isSep ("forecast".data ++
      ('/' :: (k.data ++ '/' :: ((fmtFixed16 lat).data ++
        ',' :: (fmtFixed16 long).data))))
      = "forecast".data :: k.data ::
        [(fmtFixed16 lat).data ++ ',' :: (fmtFixed16 long).data] := by
    have hff : ∀ c ∈ ("forecast".data : List Char), isSep c = false := by
      decide
    have := splitBy_append hff hs4
    simpa using this
  have hcm : ',' ∈ (fmtFixed16 lat).data ++ ',' :: (fmtFixed16 long).data :=
    List.mem_append_right _ (List.mem_cons_self _ _)
  have hne5 : (fmtFixed16 lat).data ++ ',' :: (fmtFixed16 long).data
      ≠ ['.'] := fun h => absurd (h ▸ hcm) (by decide)
  have hne6 : (fmtFixed16 lat).data ++ ',' :: (fmtFixed16 long).data
      ≠ ['.', '.'] := fun h => absurd (h ▸ hcm) (by decide)
  have hdn : dotNorm [] ["forecast".data, k.data,
      (fmtFixed16 lat).data ++ ',' :: (fmtFixed16 long).data]
      = [encodeSeg "forecast".data, encodeSeg k.data,
        encodeSeg ((fmtFixed16 lat).data ++ ',' :: (fmtFixed16 long).data)] := by
    rw [dotNorm_cons_plain _ _ _ (by decide) (by decide),
      dotNorm_cons_plain _ _ _ h1 h2,
      dotNorm_cons_plain _ _ _ hne5 hne6,
      dotNorm_nil]
    rfl
  have hpath : encodePath ('/' :: ("forecast/".data ++
      (k.data ++ '/' :: ((fmtFixed16 lat).data ++
        ',' :: (fmtFixed16 long).data))))
      = "/" ++ String.mk (intercalateChar '/' ["forecast".data, k.data,
          (fmtFixed16 lat).data ++ ',' :: (fmtFixed16 long).data]) := by
    rw [encodePath_slash]
    rw [show "forecast/".data ++ (k.data ++ '/' :: ((fmtFixed16 lat).data ++
        ',' :: (fmtFixed16 long).data))
        = "forecast".data ++ ('/' :: (k.data ++ '/' :: ((fmtFixed16 lat).data ++
          ',' :: (fmtFixed16 long).data))) from rfl]
    rw [hs5, hdn]
    rw [show encodeSeg "forecast".data = "forecast".data from rfl,
      encodeSeg_inert hki, encodeSeg_inert hci]
  have hbuild : (ForecastRequestBuilder.new k lat long).build
      = some ⟨k, lat, long,
          Url.mk "https" "api.darksky.net" none
            ("/" ++ String.mk (intercalateChar '/' ["forecast".data, k.data,
              (fmtFixed16 lat).data ++ ',' :: (fmtFixed16 long).data]))
            (some "") none,
          [], none, none, none⟩ := by
    unfold ForecastRequestBuilder.build
    rw [hbu, hpath]
    rfl
  rw [hbuild]
  refine congrArg some ?_
  apply strExt
  rw [show intercalateChar '/' ["forecast".data, k.data,
      (fmtFixed16 lat).data ++ ',' :: (fmtFixed16 long).data]
      = "forecast".data ++ '/' :: (k.data ++ '/' :: ((fmtFixed16 lat).data ++
        ',' :: (fmtFixed16 long).data)) from rfl]
  simp [Url.toString, strData_append, strData_mk, List.append_assoc]

-- the interleaving model for C2: a call sequence of single and bulk adds

/-- One exclusion-adding call on the builder: a single add
(`exclude_block`) or a bulk add (`exclude_blocks`). -/
inductive ExcludeOp where
  | single (e : ExcludeBlock)
  | bulk (v : List ExcludeBlock)

/-- Apply an interleaving of single and bulk adds to a forecast builder,
in call order. -/
def applyExcludeOps (b : ForecastRequestBuilder) :
    List ExcludeOp → ForecastRequestBuilder
  | [] => b
  | .single e :: rest => applyExcludeOps (b.exclude_block e) rest
  | .bulk v :: rest => applyExcludeOps (b.exclude_blocks v).1 rest

/-- The tags added by an interleaving, one per addition, in call order. -/
def flattenOps : List ExcludeOp → List ExcludeBlock
  | [] => []
  | .single e :: rest => e :: flattenOps rest
  | .bulk v :: rest => v ++ flattenOps rest

/-- The spec's description of the exclude value: the wire strings joined
by commas, with no leading or trailing comma (stated from the spec's words,
to be compared with the source's `excludesValue`). -/
def commaJoin : List String → String
  | [] => ""
  | [x] => x
  | x :: rest => x ++ "," ++ commaJoin rest

theorem applyExcludeOps_exclude (ops : List ExcludeOp) :
    ∀ b : ForecastRequestBuilder,
      (applyExcludeOps b ops).exclude = b.exclude ++ flattenOps ops := by
  induction ops with
  | nil =>
    intro b
    show b.exclude = b.exclude ++ []
    rw [List.append_nil]
  | cons op rest ih =>
    intro b
    cases op with
    | single e =>
      show (applyExcludeOps (b.exclude_block e) rest).exclude
        = b.exclude ++ (e :: flattenOps rest)
      rw [ih (b.exclude_block e)]
      show (b.exclude ++ [e]) ++ flattenOps rest
        = b.exclude ++ (e :: flattenOps rest)
      simp
    | bulk v =>
      show (applyExcludeOps (b.exclude_blocks v).1 rest).exclude
        = b.exclude ++ (v ++ flattenOps rest)
      rw [ih ((b.exclude_blocks v).1)]
      show (b.exclude ++ v) ++ flattenOps rest
        = b.exclude ++ (v ++ flattenOps rest)
      simp [List.append_assoc]

/-- The exclusion-adding calls touch no other builder field. -/
theorem applyExcludeOps_fields (ops : List ExcludeOp) :
    ∀ b : ForecastRequestBuilder,
      (applyExcludeOps b ops).api_key = b.api_key ∧
      (applyExcludeOps b ops).latitude = b.latitude ∧
      (applyExcludeOps b ops).longitude = b.longitude ∧
      (applyExcludeOps b ops).extend = b.extend ∧
      (applyExcludeOps b ops).lang = b.lang ∧
      (applyExcludeOps b ops).units = b.units := by
  induction ops with
  | nil => exact fun b => ⟨rfl, rfl, rfl, rfl, rfl, rfl⟩
  | cons op rest ih =>
    intro b
    cases op with
    | single e => exact ih (b.exclude_block e)
    | bulk v => exact ih ((b.exclude_blocks v).1)

theorem strAppend_assoc (a b c : String) : (a ++ b) ++ c = a ++ (b ++ c) :=
  strExt (by simp [strData_append, List.append_assoc])

theorem foldl_join_pre (ys : List String) :
    ∀ p a : String,
      ys.foldl (fun acc z => acc ++ "," ++ z) (p ++ a)
        = p ++ ys.foldl (fun acc z => acc ++ "," ++ z) a := by
  induction ys with
  | nil => intro p a; rfl
  | cons y ys ih =>
    intro p a
    show ys.foldl (fun acc z => acc ++ "," ++ z) (((p ++ a) ++ ",") ++ y)
      = p ++ ys.foldl (fun acc z => acc ++ "," ++ z) ((a ++ ",") ++ y)
    rw [show ((p ++ a) ++ ",") ++ y = p ++ ((a ++ ",") ++ y) from
      strExt (by simp [strData_append, List.append_assoc])]
    exact ih p ((a ++ ",") ++ y)

/-- `itertools::join` with `,` is the spec's comma-join. -/
theorem join_comma_eq (xs : List String) : join xs "," = commaJoin xs := by
  cases xs with
  | nil => rfl
  | cons x rest =>
    induction rest generalizing x with
    | nil => rfl
    | cons y ys ih =>
      show ys.foldl (fun acc z => acc ++ "," ++ z) ((x ++ ",") ++ y)
        = commaJoin (x :: y :: ys)
      rw [foldl_join_pre ys (x ++ ",") y]
      rw [show commaJoin (x :: y :: ys) = (x ++ ",") ++ commaJoin (y :: ys)
        from rfl]
      rw [← ih y]
      rfl

/-- serde-serializing a tag and trimming the quotes yields the bare wire
string. -/
theorem trimQuote_wire (e : ExcludeBlock) :
    trimMatchesQuote (serdeUnitVariantJson e.toWire) = e.toWire := by
  cases e <;> rfl

theorem mapTrim_eq (l : List ExcludeBlock) :
    l.map (fun e => trimMatchesQuote (serdeUnitVariantJson e.toWire))
      = l.map ExcludeBlock.toWire := by
  induction l with
  | nil => rfl
  | cons e rest ih => rw [List.map_cons, List.map_cons, trimQuote_wire, ih]

/-- The source's `excludes` value is exactly the comma-join of the wire
strings, in order. -/
theorem excludesValue_commaJoin (l : List ExcludeBlock) :
    excludesValue l = commaJoin (l.map ExcludeBlock.toWire) := by
  unfold excludesValue
  rw [mapTrim_eq]
  exact join_comma_eq _

/-- `build_url` when the parsed URL has no query and only exclusions are
set: the whole query is the single `exclude` parameter. -/
theorem build_url_eval (b : ForecastRequestBuilder) (sch host : String)
    (port : Option Nat) (path : String) (frag : Option String)
    (hp : parseUrl b.urlString = some (Url.mk sch host port path none frag))
    (hex : b.exclude.isEmpty = false) (hext : b.extend = none)
    (hl : b.lang = none) (hun : b.units = none) :
    b.build_url = some (Url.mk sch host port path
      (some ("exclude=" ++ formEncodeStr (excludesValue b.exclude))) frag) := by
  unfold ForecastRequestBuilder.build_url
  rw [hp, hext, hl, hun, hex]
  rfl

/-- `Url::parse` of the formatted forecast URL string, for a path-safe
key: host and scheme split off, no query, no fragment. -/
theorem forecast_parse_eval (k : String) (lat long : Rat)
    (hk : ∀ c ∈ k.data, pathSafeChar c = true) :
    parseUrl (String.mk ("https://api.darksky.net/forecast/".data ++
      (k.data ++ '/' :: ((fmtFixed16 lat).data ++
        ',' :: (fmtFixed16 long).data))))
      = some (Url.mk "https" "api.darksky.net" none
          (encodePath ('/' :: ("forecast/".data ++ (k.data ++ '/' ::
            ((fmtFixed16 lat).data ++ ',' :: (fmtFixed16 long).data)))))
          none none) := by
  have hki : ∀ c ∈ k.data, urlInert c := fun c hc => pathSafeChar_inert (hk c hc)
  have hci := coords_inert lat long
  have hkeep : ∀ c ∈ k.data ++ '/' :: ((fmtFixed16 lat).data ++
      ',' :: (fmtFixed16 long).data), keepChar c = true := by
    intro c hc
    rcases List.mem_append.mp hc with h | h
    · exact (hki c h).1
    · rcases List.mem_cons.mp h with h2 | h2
      · rw [h2]; decide
      · exact (hci c h2).1
  have hQH : ∀ c ∈ k.data ++ '/' :: ((fmtFixed16 lat).data ++
      ',' :: (fmtFixed16 long).data), isQH c = false := by
    intro c hc
    rcases List.mem_append.mp hc with h | h
    · exact (hki c h).2.2.2.1
    · rcases List.mem_cons.mp h with h2 | h2
      · rw [h2]; decide
      · exact (hci c h2).2.2.2.1
  have hfk : (k.data ++ '/' :: ((fmtFixed16 lat).data ++
      ',' :: (fmtFixed16 long).data)).filter keepChar
      = k.data ++ '/' :: ((fmtFixed16 lat).data ++
        ',' :: (fmtFixed16 long).data) := filter_keep_all hkeep
  obtain ⟨L0, d, hld, hdm⟩ := snoc_of_ne_nil (fmtFixed16 long).data
    (fmt_ne_nil long)
  have hdi : urlInert d := fmtCharOK_inert (fmt_chars long d hdm)
  have hsplit : k.data ++ '/' :: ((fmtFixed16 lat).data ++
      ',' :: (fmtFixed16 long).data)
      = (k.data ++ '/' :: ((fmtFixed16 lat).data ++ ',' :: L0)) ++ [d] := by
    rw [hld]
    simp [List.append_assoc]
  have hpre := parseUrl_pre
    (k.data ++ '/' :: ((fmtFixed16 lat).data ++ ',' :: (fmtFixed16 long).data))
    (k.data ++ '/' :: ((fmtFixed16 lat).data ++ ',' :: L0)) d
    (hfk.trans hsplit) hdi.2.1
  rw [← hsplit] at hpre
  exact hpre.trans (parseClean_forecast_noQH _ hQH)

/-- C2: for every interleaving of single (`exclude_block`) and bulk
(`exclude_blocks`) adds, the builder's exclusion list is exactly the added
tags, once per addition, in call order, duplicates preserved; the
`excludes` value is their wire strings comma-joined with no leading or
trailing comma; and the built URL's query consists of the single `exclude`
parameter carrying (form-urlencoded) exactly that value. -/
theorem claim_C2_exclude_order (k : String) (lat long : Rat)
    (ops : List ExcludeOp)
    (hk : ∀ c ∈ k.data, pathSafeChar c = true)
    (hne : flattenOps ops ≠ []) :
    (applyExcludeOps (ForecastRequestBuilder.new k lat long) ops).exclude
      = flattenOps ops ∧
    excludesValue (flattenOps ops)
      = commaJoin ((flattenOps ops).map ExcludeBlock.toWire) ∧
    ((applyExcludeOps (ForecastRequestBuilder.new k lat long) ops).build.map
        fun r => r.url.query)
      = some (some ("exclude=" ++
          formEncodeStr (excludesValue (flattenOps ops)))) := by
  have hex : (applyExcludeOps (ForecastRequestBuilder.new k lat long)
      ops).exclude = flattenOps ops := by
    have := applyExcludeOps_exclude ops (ForecastRequestBuilder.new k lat long)
    simpa using this
  refine ⟨hex, excludesValue_commaJoin _, ?_⟩
  have hfields := applyExcludeOps_fields ops
    (ForecastRequestBuilder.new k lat long)
  have hk1 : (applyExcludeOps (ForecastRequestBuilder.new k lat long)
      ops).api_key = k := hfields.1
  have hk2 : (applyExcludeOps (ForecastRequestBuilder.new k lat long)
      ops).latitude = lat := hfields.2.1
  have hk3 : (applyExcludeOps (ForecastRequestBuilder.new k lat long)
      ops).longitude = long := hfields.2.2.1
  have hext : (applyExcludeOps (ForecastRequestBuilder.new k lat long)
      ops).extend = none := hfields.2.2.2.1
  have hl : (applyExcludeOps (ForecastRequestBuilder.new k lat long)
      ops).lang = none := hfields.2.2.2.2.1
  have hun : (applyExcludeOps (ForecastRequestBuilder.new k lat long)
      ops).units = none := hfields.2.2.2.2.2
  have hud := forecast_urlString_data
    (applyExcludeOps (ForecastRequestBuilder.new k lat long) ops)
  rw [hk1, hk2, hk3] at hud
  have hmk : (applyExcludeOps (ForecastRequestBuilder.new k lat long)
      ops).urlString = String.mk
      ("https://api.darksky.net/forecast/".data ++
        (k.data ++ '/' :: ((fmtFixed16 lat).data ++
          ',' :: (fmtFixed16 long).data))) :=
    strExt (hud.trans (strData_mk _).symm)
  have hp : parseUrl (applyExcludeOps (ForecastRequestBuilder.new k lat long)
      ops).urlString
      = some (Url.mk "https" "api.darksky.net" none
          (encodePath ('/' :: ("forecast/".data ++ (k.data ++ '/' ::
            ((fmtFixed16 lat).data ++ ',' :: (fmtFixed16 long).data)))))
          none none) := by
    rw [hmk]
    exact forecast_parse_eval k lat long hk
  have hexne : (applyExcludeOps (ForecastRequestBuilder.new k lat long)
      ops).exclude.isEmpty = false := by
    rw [hex]
    cases h : flattenOps ops with
    | nil => exact absurd h hne
    | cons a as => rfl
  have hbu := build_url_eval _ _ _ _ _ _ hp hexne hext hl hun
  rw [hex] at hbu
  have hbuild : (applyExcludeOps (ForecastRequestBuilder.new k lat long)
      ops).build
      = some ⟨(applyExcludeOps (ForecastRequestBuilder.new k lat long)
          ops).api_key,
        (applyExcludeOps (ForecastRequestBuilder.new k lat long) ops).latitude,
        (applyExcludeOps (ForecastRequestBuilder.new k lat long) ops).longitude,
        Url.mk "https" "api.darksky.net" none
          (encodePath ('/' :: ("forecast/".data ++ (k.data ++ '/' ::
            ((fmtFixed16 lat).data ++ ',' :: (fmtFixed16 long).data)))))
          (some ("exclude=" ++ formEncodeStr (excludesValue (flattenOps ops))))
          none,
        (applyExcludeOps (ForecastRequestBuilder.new k lat long) ops).exclude,
        (applyExcludeOps (ForecastRequestBuilder.new k lat long) ops).extend,
        (applyExcludeOps (ForecastRequestBuilder.new k lat long) ops).lang,
        (applyExcludeOps (ForecastRequestBuilder.new k lat long) ops).units⟩ := by
    unfold ForecastRequestBuilder.build
    rw [hbu]
  rw [hbuild]
  rfl

/-- C2 witness: the interleaving of the source's own test — one single add
of `Hourly`, then a bulk add of `[Daily, Alerts]`. -/
theorem claim_C2_exclude_order_witness :
    (∀ c ∈ ("some_api_key".data : List Char), pathSafeChar c = true) ∧
    flattenOps [ExcludeOp.single .Hourly, ExcludeOp.bulk [.Daily, .Alerts]]
      ≠ [] ∧
    ((applyExcludeOps (ForecastRequestBuilder.new "some_api_key" 1 1)
        [ExcludeOp.single .Hourly, ExcludeOp.bulk [.Daily, .Alerts]]).build.map
        fun r => r.url.query)
      = some (some ("exclude=" ++ formEncodeStr (excludesValue (flattenOps
          [ExcludeOp.single .Hourly, ExcludeOp.bulk [.Daily, .Alerts]])))) :=
  ⟨by decide, by decide,
    (claim_C2_exclude_order "some_api_key" 1 1
      [ExcludeOp.single .Hourly, ExcludeOp.bulk [.Daily, .Alerts]]
      (by decide) (by decide)).2.2⟩

/-- C4 witness: the amended theorem at the concrete key `"some_api_key"`
and coordinates `1`, `1`. -/
theorem claim_C4_bare_query_amended_witness :
    (∀ c ∈ ("some_api_key".data : List Char), pathSafeChar c = true) ∧
    ((ForecastRequestBuilder.new "some_api_key" 1 1).build.map fun r =>
        Url.toString r.url)
      = some
        "https://api.darksky.net/forecast/some_api_key/1.0000000000000000,1.0000000000000000?" :=
  ⟨by decide, by
    have h := claim_C4_bare_query_amended "some_api_key" 1 1 (by decide)
      (by decide) (by decide)
    rw [h]
    decide⟩

end Forecast
